import Mathlib

/-!
Verification development for the TicketDot ink! contract
(src/contract/lib.rs).

The contract is shallowly embedded: each `#[ink(message)]` handler becomes a
pure Lean function from an explicit `State` (the `#[ink(storage)]` struct) and
the environment inputs it reads (caller, attached value, block timestamp, and
the success/failure outcome of the native-currency transfer primitive) to a
result plus an updated state.  Machine integers are modelled as `ℕ` with the
saturating operations of the source written out explicitly.  `Mapping<K, V>`
becomes `ℕ → Option V`; `BTreeSet<u64>` becomes `Finset ℕ` (sorted iteration
is `Finset.sort`).  Account identifiers are opaque and modelled as `ℕ`.
-/

namespace Ticketdot

/-- u64::MAX = 2^64 - 1, the saturation point of the two ID counters. -/
def U64_MAX : ℕ := 18446744073709551615

/-- u32::MAX = 2^32 - 1, the saturation point of `available_tickets`. -/
def U32_MAX : ℕ := 4294967295

/-- u128::MAX = 2^128 - 1, the saturation point of `Balance` arithmetic. -/
def U128_MAX : ℕ := 340282366920938463463374607431768211455

/-- `u64::saturating_add(1)` (source: `saturating_add(1)` on the counters). -/
def satAdd64 (n : ℕ) : ℕ := min (n + 1) U64_MAX

/-- `u32::saturating_add(1)` (source: `available_tickets.saturating_add(1)`). -/
def satAdd32 (n : ℕ) : ℕ := min (n + 1) U32_MAX

/-- `u128::saturating_mul` (source: `price.saturating_mul(tickets_sold)`). -/
def satMul128 (a b : ℕ) : ℕ := min (a * b) U128_MAX

/-- Source constant `MAX_TICKETS_PER_EVENT`. -/
def MAX_TICKETS_PER_EVENT : ℕ := 1000000

/-- Source constant `MIN_TICKET_PRICE`. -/
def MIN_TICKET_PRICE : ℕ := 1

/-- Source constant `MAX_EVENT_NAME_LENGTH`. -/
def MAX_EVENT_NAME_LENGTH : ℕ := 200

/-- Source constant `MAX_METADATA_CID_LENGTH`. -/
def MAX_METADATA_CID_LENGTH : ℕ := 1000

/-- Source constant `MAX_TICKETS_PER_USER`. -/
def MAX_TICKETS_PER_USER : ℕ := 1000

/-- The `Event` storage record (source: `pub struct Event`).  String lengths
are measured in units, matching the spec's wording for `len()`. -/
structure Event where
  id : ℕ
  name : String
  organizer : ℕ
  price : ℕ
  total_tickets : ℕ
  available_tickets : ℕ
  timestamp : ℕ
  metadata_cid : String
  active : Bool
  cancelled : Bool
  completed : Bool
  deriving DecidableEq

/-- The `Ticket` storage record (source: `pub struct Ticket`). -/
structure Ticket where
  id : ℕ
  event_id : ℕ
  owner : ℕ
  purchase_time : ℕ
  is_used : Bool
  is_refunded : Bool
  deriving DecidableEq

/-- The contract's error enum (source: `pub enum Error`). -/
inductive Error where
  | EventNotFound
  | SoldOut
  | InsufficientPayment
  | TicketNotFound
  | NotTicketOwner
  | EventNotActive
  | TicketAlreadyUsed
  | TransferFailed
  | NotOrganizer
  | EventCancelled
  | EventCompleted
  | TicketAlreadyRefunded
  | InvalidInput
  | TooManyTickets
  | InsufficientBalance
  | EventNotCompleted
  deriving DecidableEq

/-- The contract storage (source: `pub struct TicketDot`).  `Mapping` is a
total function to `Option`; `Mapping<AccountId, BTreeSet<u64>>` is a total
function to `Finset ℕ` with the absent key reading as `∅`, matching the
source's `unwrap_or_default()` on every read. -/
@[ext]
structure State where
  event_counter : ℕ
  ticket_counter : ℕ
  events : ℕ → Option Event
  tickets : ℕ → Option Ticket
  owner_tickets : ℕ → Finset ℕ
  admin : ℕ

/-- `Mapping::insert` for record maps. -/
def mset {α : Type} (m : ℕ → Option α) (k : ℕ) (v : α) : ℕ → Option α :=
  fun j => if j = k then some v else m j

/-- `Mapping::insert` for the ownership-index map. -/
def sset (m : ℕ → Finset ℕ) (k : ℕ) (v : Finset ℕ) : ℕ → Finset ℕ :=
  fun j => if j = k then v else m j

/-- The constructor (source: `pub fn new()`), with the deployer as admin. -/
def new (adm : ℕ) : State where
  event_counter := 0
  ticket_counter := 0
  events := fun _ => none
  tickets := fun _ => none
  owner_tickets := fun _ => ∅
  admin := adm

/-- Source: `pub fn create_event`.  Environment inputs: `caller`, block
timestamp `now`. -/
def create_event (s : State) (caller now : ℕ) (name : String) (price : ℕ)
    (total_tickets : ℕ) (metadata_cid : String) : Except Error ℕ × State :=
  if name.length = 0 ∨ MAX_EVENT_NAME_LENGTH < name.length then
    (.error .InvalidInput, s)
  else if metadata_cid.length = 0 ∨ MAX_METADATA_CID_LENGTH < metadata_cid.length then
    (.error .InvalidInput, s)
  else if total_tickets = 0 ∨ MAX_TICKETS_PER_EVENT < total_tickets then
    (.error .InvalidInput, s)
  else if price < MIN_TICKET_PRICE then
    (.error .InvalidInput, s)
  else
    let event_id := s.event_counter
    let event : Event :=
      { id := event_id
        name := name
        organizer := caller
        price := price
        total_tickets := total_tickets
        available_tickets := total_tickets
        timestamp := now
        metadata_cid := metadata_cid
        active := true
        cancelled := false
        completed := false }
    (.ok event_id,
      { s with
        events := mset s.events event_id event
        event_counter := satAdd64 s.event_counter })

/-- Source: `pub fn buy_ticket` (payable).  Environment inputs: `caller`,
`payment` (`transferred_value()`), block timestamp `now`. -/
def buy_ticket (s : State) (caller payment now event_id : ℕ) :
    Except Error ℕ × State :=
  match s.events event_id with
  | none => (.error .EventNotFound, s)
  | some event =>
    if event.active = false then (.error .EventNotActive, s)
    else if event.cancelled = true then (.error .EventCancelled, s)
    else if event.completed = true then (.error .EventCompleted, s)
    else if event.available_tickets = 0 then (.error .SoldOut, s)
    else if payment ≠ event.price then (.error .InsufficientPayment, s)
    else if MAX_TICKETS_PER_USER ≤ (s.owner_tickets caller).card then
      (.error .TooManyTickets, s)
    else
      let ticket_id := s.ticket_counter
      let ticket : Ticket :=
        { id := ticket_id
          event_id := event_id
          owner := caller
          purchase_time := now
          is_used := false
          is_refunded := false }
      let event' := { event with available_tickets := event.available_tickets - 1 }
      (.ok ticket_id,
        { s with
          events := mset s.events event_id event'
          tickets := mset s.tickets ticket_id ticket
          ticket_counter := satAdd64 s.ticket_counter
          owner_tickets :=
            sset s.owner_tickets caller (insert ticket_id (s.owner_tickets caller)) })

/-- Source: `pub fn transfer_ticket`.  The recipient's set is re-read from
storage after the sender's set is written back, exactly as in the source
(lines 423-430), which is what makes a self-transfer keep the ticket. -/
def transfer_ticket (s : State) (caller ticket_id to' : ℕ) :
    Except Error Unit × State :=
  match s.tickets ticket_id with
  | none => (.error .TicketNotFound, s)
  | some ticket =>
    if ticket.owner ≠ caller then (.error .NotTicketOwner, s)
    else if ticket.is_used = true then (.error .TicketAlreadyUsed, s)
    else if ticket.is_refunded = true then (.error .TicketAlreadyRefunded, s)
    else if MAX_TICKETS_PER_USER ≤ (s.owner_tickets to').card then
      (.error .TooManyTickets, s)
    else
      let old_owner := ticket.owner
      let sets1 := sset s.owner_tickets old_owner ((s.owner_tickets old_owner).erase ticket_id)
      let sets2 := sset sets1 to' (insert ticket_id (sets1 to'))
      (.ok (),
        { s with
          tickets := mset s.tickets ticket_id { ticket with owner := to' }
          owner_tickets := sets2 })

/-- Source: `pub fn use_ticket` (organizer/admin gate-scan). -/
def use_ticket (s : State) (caller ticket_id : ℕ) : Except Error Unit × State :=
  match s.tickets ticket_id with
  | none => (.error .TicketNotFound, s)
  | some ticket =>
    match s.events ticket.event_id with
    | none => (.error .EventNotFound, s)
    | some event =>
      if caller ≠ event.organizer ∧ caller ≠ s.admin then (.error .NotTicketOwner, s)
      else if ticket.is_refunded = true then (.error .TicketAlreadyRefunded, s)
      else if ticket.is_used = true then (.error .TicketAlreadyUsed, s)
      else if event.cancelled = true then (.error .EventCancelled, s)
      else if event.completed = true then (.error .EventCompleted, s)
      else
        (.ok (),
          { s with tickets := mset s.tickets ticket_id { ticket with is_used := true } })

/-- Source: `pub fn cancel_event`. -/
def cancel_event (s : State) (caller event_id : ℕ) : Except Error Unit × State :=
  match s.events event_id with
  | none => (.error .EventNotFound, s)
  | some event =>
    if caller ≠ event.organizer then (.error .NotOrganizer, s)
    else if event.cancelled = true then (.error .EventCancelled, s)
    else if event.completed = true then (.error .EventCompleted, s)
    else
      (.ok (),
        { s with
          events := mset s.events event_id
            { event with cancelled := true, active := false } })

/-- Source: `pub fn complete_event`. -/
def complete_event (s : State) (caller event_id : ℕ) : Except Error Unit × State :=
  match s.events event_id with
  | none => (.error .EventNotFound, s)
  | some event =>
    if caller ≠ event.organizer then (.error .NotOrganizer, s)
    else if event.cancelled = true then (.error .EventCancelled, s)
    else if event.completed = true then (.error .EventCompleted, s)
    else
      (.ok (),
        { s with
          events := mset s.events event_id
            { event with completed := true, active := false } })

/-- Source: `pub fn refund_ticket`.  `transfer_ok` is the outcome the
environment's `transfer` primitive would report; the third component lists the
transfers that actually went through.  As in the source, the ticket record and
the ownership index are written BEFORE the transfer is attempted. -/
def refund_ticket (s : State) (caller ticket_id : ℕ) (transfer_ok : Bool) :
    Except Error Unit × State × List (ℕ × ℕ) :=
  match s.tickets ticket_id with
  | none => (.error .TicketNotFound, s, [])
  | some ticket =>
    if ticket.owner ≠ caller then (.error .NotTicketOwner, s, [])
    else if ticket.is_refunded = true then (.error .TicketAlreadyRefunded, s, [])
    else
      match s.events ticket.event_id with
      | none => (.error .EventNotFound, s, [])
      | some event =>
        if event.cancelled = false then (.error .EventNotActive, s, [])
        else
          let s1 :=
            { s with
              tickets := mset s.tickets ticket_id { ticket with is_refunded := true }
              owner_tickets :=
                sset s.owner_tickets caller ((s.owner_tickets caller).erase ticket_id) }
          let refund_amount := event.price
          if transfer_ok = false then (.error .TransferFailed, s1, [])
          else (.ok (), s1, [(caller, refund_amount)])

/-- Source: `pub fn cancel_ticket`.  Same transfer modelling as
`refund_ticket`; additionally returns the slot to `available_tickets`. -/
def cancel_ticket (s : State) (caller ticket_id : ℕ) (transfer_ok : Bool) :
    Except Error Unit × State × List (ℕ × ℕ) :=
  match s.tickets ticket_id with
  | none => (.error .TicketNotFound, s, [])
  | some ticket =>
    if ticket.owner ≠ caller then (.error .NotTicketOwner, s, [])
    else if ticket.is_refunded = true then (.error .TicketAlreadyRefunded, s, [])
    else if ticket.is_used = true then (.error .TicketAlreadyUsed, s, [])
    else
      match s.events ticket.event_id with
      | none => (.error .EventNotFound, s, [])
      | some event =>
        if event.cancelled = true then (.error .EventCancelled, s, [])
        else if event.completed = true then (.error .EventCompleted, s, [])
        else
          let s1 :=
            { s with
              tickets := mset s.tickets ticket_id { ticket with is_refunded := true }
              events := mset s.events ticket.event_id
                { event with available_tickets := satAdd32 event.available_tickets }
              owner_tickets :=
                sset s.owner_tickets caller ((s.owner_tickets caller).erase ticket_id) }
          let refund_amount := event.price
          if transfer_ok = false then (.error .TransferFailed, s1, [])
          else (.ok (), s1, [(caller, refund_amount)])

/-- Source: `pub fn withdraw_earnings`.  Reads the event, checks organizer and
completion, computes the saturating product, attempts the transfer.  Writes
nothing back to storage. -/
def withdraw_earnings (s : State) (caller event_id : ℕ) (transfer_ok : Bool) :
    Except Error Unit × State × List (ℕ × ℕ) :=
  match s.events event_id with
  | none => (.error .EventNotFound, s, [])
  | some event =>
    if caller ≠ event.organizer then (.error .NotOrganizer, s, [])
    else if event.completed = false then (.error .EventNotCompleted, s, [])
    else
      let tickets_sold := event.total_tickets - event.available_tickets
      let earnings := satMul128 event.price tickets_sold
      if transfer_ok = false then (.error .TransferFailed, s, [])
      else (.ok (), s, [(caller, earnings)])

/-- Source: `pub fn get_event`. -/
def get_event (s : State) (event_id : ℕ) : Option Event := s.events event_id

/-- Source: `pub fn get_ticket`. -/
def get_ticket (s : State) (ticket_id : ℕ) : Option Ticket := s.tickets ticket_id

/-- Source: `pub fn get_my_tickets`: the owner's `BTreeSet` iterated in
ascending order. -/
def get_my_tickets (s : State) (owner : ℕ) : List ℕ :=
  (s.owner_tickets owner).sort (· ≤ ·)

/-- Source: `pub fn get_event_count`. -/
def get_event_count (s : State) : ℕ := s.event_counter

/-- Source: `pub fn get_ticket_count`. -/
def get_ticket_count (s : State) : ℕ := s.ticket_counter

/-- Source: `pub fn get_admin`. -/
def get_admin (s : State) : ℕ := s.admin

/-- Modelled from the spec: the message dispatcher that the `#[ink::contract]`
macro generates around every handler is code of this repository's build that
is not under src/.  On ink! ≥ 4 it reverts every storage write of a message
whose result is `Err`, and the spec demands the same ("A call either fully
applies all its state mutations and succeeds, or ... applies none of them",
§5).  `revert3` applies that dispatcher semantics to the three fund-moving
handlers, whose bodies write storage before attempting the transfer. -/
def revert3 (s : State) (r : Except Error Unit × State × List (ℕ × ℕ)) :
    Except Error Unit × State × List (ℕ × ℕ) :=
  match r.1 with
  | .ok _ => r
  | .error e => (.error e, s, r.2.2)

/-- `refund_ticket` as dispatched on chain (state reverted on error). -/
def refund_ticket_call (s : State) (caller ticket_id : ℕ) (transfer_ok : Bool) :
    Except Error Unit × State × List (ℕ × ℕ) :=
  revert3 s (refund_ticket s caller ticket_id transfer_ok)

/-- `cancel_ticket` as dispatched on chain (state reverted on error). -/
def cancel_ticket_call (s : State) (caller ticket_id : ℕ) (transfer_ok : Bool) :
    Except Error Unit × State × List (ℕ × ℕ) :=
  revert3 s (cancel_ticket s caller ticket_id transfer_ok)

/-- `withdraw_earnings` as dispatched on chain (state reverted on error). -/
def withdraw_earnings_call (s : State) (caller event_id : ℕ) (transfer_ok : Bool) :
    Except Error Unit × State × List (ℕ × ℕ) :=
  revert3 s (withdraw_earnings s caller event_id transfer_ok)

/-! Interface lemmas: for each handler, the state it leaves behind is either
the input state (on any error, using the dispatcher semantics for the three
fund-moving handlers) or an explicit successful successor state guarded by
the handler's checks.  These are proved once from the definitions and drive
all invariant proofs below. -/

/-- Successor state of a successful `create_event`. -/
def createSt (s : State) (caller now : ℕ) (name : String) (price total_tickets : ℕ)
    (metadata_cid : String) : State :=
  { s with
    events := mset s.events s.event_counter
      { id := s.event_counter, name := name, organizer := caller, price := price,
        total_tickets := total_tickets, available_tickets := total_tickets,
        timestamp := now, metadata_cid := metadata_cid,
        active := true, cancelled := false, completed := false }
    event_counter := satAdd64 s.event_counter }

/-- Successor state of a successful `buy_ticket` on event `e`. -/
def buySt (s : State) (caller now event_id : ℕ) (e : Event) : State :=
  { s with
    events := mset s.events event_id { e with available_tickets := e.available_tickets - 1 }
    tickets := mset s.tickets s.ticket_counter
      { id := s.ticket_counter, event_id := event_id, owner := caller,
        purchase_time := now, is_used := false, is_refunded := false }
    ticket_counter := satAdd64 s.ticket_counter
    owner_tickets :=
      sset s.owner_tickets caller (insert s.ticket_counter (s.owner_tickets caller)) }

/-- Successor state of a successful `transfer_ticket` of ticket `t`. -/
def transferSt (s : State) (ticket_id : ℕ) (t : Ticket) (to' : ℕ) : State :=
  { s with
    tickets := mset s.tickets ticket_id { t with owner := to' }
    owner_tickets :=
      sset (sset s.owner_tickets t.owner ((s.owner_tickets t.owner).erase ticket_id)) to'
        (insert ticket_id
          ((sset s.owner_tickets t.owner ((s.owner_tickets t.owner).erase ticket_id)) to')) }

/-- Successor state of a successful `use_ticket` of ticket `t`. -/
def useSt (s : State) (ticket_id : ℕ) (t : Ticket) : State :=
  { s with tickets := mset s.tickets ticket_id { t with is_used := true } }

/-- Successor state of a successful `cancel_event` of event `e`. -/
def cancelEvSt (s : State) (event_id : ℕ) (e : Event) : State :=
  { s with events := mset s.events event_id { e with cancelled := true, active := false } }

/-- Successor state of a successful `complete_event` of event `e`. -/
def completeEvSt (s : State) (event_id : ℕ) (e : Event) : State :=
  { s with events := mset s.events event_id { e with completed := true, active := false } }

/-- Successor state of a successful `refund_ticket` of ticket `t`. -/
def refundSt (s : State) (c id : ℕ) (t : Ticket) : State :=
  { s with
    tickets := mset s.tickets id { t with is_refunded := true }
    owner_tickets := sset s.owner_tickets c ((s.owner_tickets c).erase id) }

/-- Successor state of a successful `cancel_ticket` of ticket `t` on event
`e`. -/
def cancelTickSt (s : State) (c id : ℕ) (t : Ticket) (e : Event) : State :=
  { s with
    tickets := mset s.tickets id { t with is_refunded := true }
    events := mset s.events t.event_id
      { e with available_tickets := satAdd32 e.available_tickets }
    owner_tickets := sset s.owner_tickets c ((s.owner_tickets c).erase id) }

lemma refund_true_cases (s : State) (c id : ℕ) :
    (refund_ticket s c id true).1 ≠ .ok () ∨
    (∃ t e, s.tickets id = some t ∧ t.owner = c ∧ t.is_refunded = false ∧
      s.events t.event_id = some e ∧ e.cancelled = true) := by
  unfold refund_ticket
  simp only [reduceIte]
  split
  · simp
  · rename_i t hts
    split_ifs with h1 h2 h3
    · simp
    · simp
    · exact h3.elim
    · split
      · simp
      · rename_i e hev
        split_ifs with h4
        · simp
        · right
          exact ⟨t, e, hts, by omega, by simpa using h2, hev, by simpa using h4⟩

lemma refund_ticket_ok (s : State) (c id : ℕ) (ok : Bool) (t : Ticket) (e : Event)
    (ht : s.tickets id = some t) (ho : t.owner = c) (hr : t.is_refunded = false)
    (he : s.events t.event_id = some e) (hc : e.cancelled = true) :
    refund_ticket s c id ok =
      (if ok then .ok () else .error .TransferFailed, refundSt s c id t,
       if ok then [(c, e.price)] else []) := by
  unfold refund_ticket
  rw [ht]
  simp only [ho, hr, he, hc, refundSt]
  cases ok <;> simp

lemma cancel_true_cases (s : State) (c id : ℕ) :
    (cancel_ticket s c id true).1 ≠ .ok () ∨
    (∃ t e, s.tickets id = some t ∧ t.owner = c ∧ t.is_refunded = false ∧
      t.is_used = false ∧ s.events t.event_id = some e ∧ e.cancelled = false ∧
      e.completed = false) := by
  unfold cancel_ticket
  simp only [reduceIte]
  split
  · simp
  · rename_i t hts
    split_ifs with h1 h2 h3 h4
    · simp
    · simp
    · simp
    · exact h4.elim
    · split
      · simp
      · rename_i e hev
        split_ifs with h5 h6
        · simp
        · simp
        · right
          exact ⟨t, e, hts, by omega, by simpa using h2, by simpa using h3, hev,
            by simpa using h5, by simpa using h6⟩

lemma cancel_ticket_ok (s : State) (c id : ℕ) (ok : Bool) (t : Ticket) (e : Event)
    (ht : s.tickets id = some t) (ho : t.owner = c) (hr : t.is_refunded = false)
    (hu : t.is_used = false) (he : s.events t.event_id = some e)
    (hc : e.cancelled = false) (hcm : e.completed = false) :
    cancel_ticket s c id ok =
      (if ok then .ok () else .error .TransferFailed, cancelTickSt s c id t e,
       if ok then [(c, e.price)] else []) := by
  unfold cancel_ticket
  rw [ht]
  simp only [ho, hr, hu, he, hc, hcm, cancelTickSt]
  cases ok <;> simp

lemma withdraw_true_cases (s : State) (c id : ℕ) :
    (withdraw_earnings s c id true).1 ≠ .ok () ∨
    (∃ e, s.events id = some e ∧ c = e.organizer ∧ e.completed = true) := by
  unfold withdraw_earnings
  simp only [reduceIte]
  split
  · simp
  · rename_i e hev
    split_ifs with h1 h2 h3
    · simp
    · simp
    · exact h3.elim
    · right
      exact ⟨e, hev, by omega, by simpa using h2⟩

lemma withdraw_earnings_ok (s : State) (c id : ℕ) (ok : Bool) (e : Event)
    (he : s.events id = some e) (ho : c = e.organizer) (hcm : e.completed = true) :
    withdraw_earnings s c id ok =
      (if ok then .ok () else .error .TransferFailed, s,
       if ok then [(c, satMul128 e.price (e.total_tickets - e.available_tickets))]
       else []) := by
  unfold withdraw_earnings
  rw [he]
  simp only [ho, hcm]
  cases ok <;> simp

lemma create_state_cases (s : State) (caller now : ℕ) (name : String)
    (price total_tickets : ℕ) (metadata_cid : String) :
    (create_event s caller now name price total_tickets metadata_cid).2 = s ∨
    (name.length ≠ 0 ∧ name.length ≤ MAX_EVENT_NAME_LENGTH ∧
     metadata_cid.length ≠ 0 ∧ metadata_cid.length ≤ MAX_METADATA_CID_LENGTH ∧
     total_tickets ≠ 0 ∧ total_tickets ≤ MAX_TICKETS_PER_EVENT ∧
     MIN_TICKET_PRICE ≤ price ∧
     (create_event s caller now name price total_tickets metadata_cid).2 =
       createSt s caller now name price total_tickets metadata_cid) := by
  unfold create_event
  split_ifs with h1 h2 h3 h4
  · exact Or.inl rfl
  · exact Or.inl rfl
  · exact Or.inl rfl
  · exact Or.inl rfl
  · right
    push_neg at h1 h2 h3 h4
    exact ⟨h1.1, by omega, h2.1, by omega, h3.1, by omega, by omega, rfl⟩

lemma buy_state_cases (s : State) (caller payment now event_id : ℕ) :
    (buy_ticket s caller payment now event_id).2 = s ∨
    (∃ e, s.events event_id = some e ∧ e.active = true ∧ e.cancelled = false ∧
      e.completed = false ∧ e.available_tickets ≠ 0 ∧ payment = e.price ∧
      (s.owner_tickets caller).card < MAX_TICKETS_PER_USER ∧
      (buy_ticket s caller payment now event_id).2 = buySt s caller now event_id e) := by
  unfold buy_ticket
  split
  · exact Or.inl rfl
  · rename_i e hev
    split_ifs with h1 h2 h3 h4 h5 h6
    · exact Or.inl rfl
    · exact Or.inl rfl
    · exact Or.inl rfl
    · exact Or.inl rfl
    · exact Or.inl rfl
    · exact Or.inl rfl
    · right
      refine ⟨e, hev, by simpa using h1, by simpa using h2, by simpa using h3,
        h4, by omega, by omega, rfl⟩

lemma transfer_state_cases (s : State) (caller ticket_id to' : ℕ) :
    (transfer_ticket s caller ticket_id to').2 = s ∨
    (∃ t, s.tickets ticket_id = some t ∧ t.owner = caller ∧ t.is_used = false ∧
      t.is_refunded = false ∧ (s.owner_tickets to').card < MAX_TICKETS_PER_USER ∧
      (transfer_ticket s caller ticket_id to').2 = transferSt s ticket_id t to') := by
  unfold transfer_ticket
  split
  · exact Or.inl rfl
  · rename_i t hts
    split_ifs with h1 h2 h3 h4
    · exact Or.inl rfl
    · exact Or.inl rfl
    · exact Or.inl rfl
    · exact Or.inl rfl
    · right
      have ho : t.owner = caller := by omega
      refine ⟨t, hts, ho, by simpa using h2, by simpa using h3, by omega, ?_⟩
      simp [transferSt, ho]

lemma use_state_cases (s : State) (caller ticket_id : ℕ) :
    (use_ticket s caller ticket_id).2 = s ∨
    (∃ t e, s.tickets ticket_id = some t ∧ s.events t.event_id = some e ∧
      (caller = e.organizer ∨ caller = s.admin) ∧ t.is_refunded = false ∧
      t.is_used = false ∧ e.cancelled = false ∧ e.completed = false ∧
      (use_ticket s caller ticket_id).2 = useSt s ticket_id t) := by
  unfold use_ticket
  split
  · exact Or.inl rfl
  · rename_i t hts
    split
    · exact Or.inl rfl
    · rename_i e hev
      split_ifs with h1 h2 h3 h4 h5
      · exact Or.inl rfl
      · exact Or.inl rfl
      · exact Or.inl rfl
      · exact Or.inl rfl
      · exact Or.inl rfl
      · right
        refine ⟨t, e, hts, hev, by tauto, by simpa using h2, by simpa using h3,
          by simpa using h4, by simpa using h5, rfl⟩

lemma cancel_event_state_cases (s : State) (caller event_id : ℕ) :
    (∃ err, cancel_event s caller event_id = (.error err, s)) ∨
    (∃ e, s.events event_id = some e ∧ caller = e.organizer ∧
      e.cancelled = false ∧ e.completed = false ∧
      cancel_event s caller event_id = (.ok (), cancelEvSt s event_id e)) := by
  unfold cancel_event
  split
  · exact Or.inl ⟨_, rfl⟩
  · rename_i e hev
    split_ifs with h1 h2 h3
    · exact Or.inl ⟨_, rfl⟩
    · exact Or.inl ⟨_, rfl⟩
    · exact Or.inl ⟨_, rfl⟩
    · right
      exact ⟨e, hev, by omega, by simpa using h2, by simpa using h3, rfl⟩

lemma complete_event_state_cases (s : State) (caller event_id : ℕ) :
    (∃ err, complete_event s caller event_id = (.error err, s)) ∨
    (∃ e, s.events event_id = some e ∧ caller = e.organizer ∧
      e.cancelled = false ∧ e.completed = false ∧
      complete_event s caller event_id = (.ok (), completeEvSt s event_id e)) := by
  unfold complete_event
  split
  · exact Or.inl ⟨_, rfl⟩
  · rename_i e hev
    split_ifs with h1 h2 h3
    · exact Or.inl ⟨_, rfl⟩
    · exact Or.inl ⟨_, rfl⟩
    · exact Or.inl ⟨_, rfl⟩
    · right
      exact ⟨e, hev, by omega, by simpa using h2, by simpa using h3, rfl⟩

lemma refund_raw_false_err (s : State) (c id : ℕ) :
    ∃ err, (refund_ticket s c id false).1 = .error err := by
  unfold refund_ticket
  simp only [reduceIte]
  split
  · exact ⟨_, rfl⟩
  · rename_i t hts
    split_ifs with h1 h2
    · exact ⟨_, rfl⟩
    · exact ⟨_, rfl⟩
    · split
      · exact ⟨_, rfl⟩
      · rename_i e hev
        split_ifs with h3
        · exact ⟨_, rfl⟩
        · exact ⟨_, rfl⟩

lemma cancel_raw_false_err (s : State) (c id : ℕ) :
    ∃ err, (cancel_ticket s c id false).1 = .error err := by
  unfold cancel_ticket
  simp only [reduceIte]
  split
  · exact ⟨_, rfl⟩
  · rename_i t hts
    split_ifs with h1 h2 h3
    · exact ⟨_, rfl⟩
    · exact ⟨_, rfl⟩
    · exact ⟨_, rfl⟩
    · split
      · exact ⟨_, rfl⟩
      · rename_i e hev
        split_ifs with h4 h5
        · exact ⟨_, rfl⟩
        · exact ⟨_, rfl⟩
        · exact ⟨_, rfl⟩

lemma refund_call_state_cases (s : State) (c id : ℕ) (ok : Bool) :
    (refund_ticket_call s c id ok).2.1 = s ∨
    (∃ t e, s.tickets id = some t ∧ t.owner = c ∧ t.is_refunded = false ∧
      s.events t.event_id = some e ∧ e.cancelled = true ∧ ok = true ∧
      (refund_ticket_call s c id ok).2.1 = refundSt s c id t) := by
  cases ok with
  | false =>
    left
    obtain ⟨err, herr⟩ := refund_raw_false_err s c id
    unfold refund_ticket_call revert3
    simp [herr]
  | true =>
    rcases refund_true_cases s c id with hbad | ⟨t, e, ht, ho, hr, he, hc⟩
    · left
      unfold refund_ticket_call revert3
      cases hres : (refund_ticket s c id true).1 with
      | ok v => cases v; exact absurd hres hbad
      | error err => simp [hres]
    · right
      refine ⟨t, e, ht, ho, hr, he, hc, rfl, ?_⟩
      unfold refund_ticket_call revert3
      rw [refund_ticket_ok s c id true t e ht ho hr he hc]
      simp

lemma cancel_call_state_cases (s : State) (c id : ℕ) (ok : Bool) :
    (cancel_ticket_call s c id ok).2.1 = s ∨
    (∃ t e, s.tickets id = some t ∧ t.owner = c ∧ t.is_refunded = false ∧
      t.is_used = false ∧ s.events t.event_id = some e ∧ e.cancelled = false ∧
      e.completed = false ∧ ok = true ∧
      (cancel_ticket_call s c id ok).2.1 = cancelTickSt s c id t e) := by
  cases ok with
  | false =>
    left
    obtain ⟨err, herr⟩ := cancel_raw_false_err s c id
    unfold cancel_ticket_call revert3
    simp [herr]
  | true =>
    rcases cancel_true_cases s c id with hbad | ⟨t, e, ht, ho, hr, hu, he, hc, hcm⟩
    · left
      unfold cancel_ticket_call revert3
      cases hres : (cancel_ticket s c id true).1 with
      | ok v => cases v; exact absurd hres hbad
      | error err => simp [hres]
    · right
      refine ⟨t, e, ht, ho, hr, hu, he, hc, hcm, rfl, ?_⟩
      unfold cancel_ticket_call revert3
      rw [cancel_ticket_ok s c id true t e ht ho hr hu he hc hcm]
      simp

lemma withdraw_state (s : State) (c eid : ℕ) (ok : Bool) :
    (withdraw_earnings s c eid ok).2.1 = s := by
  unfold withdraw_earnings
  split
  · rfl
  · split_ifs <;> rfl

lemma withdraw_call_state (s : State) (c eid : ℕ) (ok : Bool) :
    (withdraw_earnings_call s c eid ok).2.1 = s := by
  unfold withdraw_earnings_call revert3
  cases hres : (withdraw_earnings s c eid ok).1 with
  | ok v =>
    simp only [hres]
    exact withdraw_state s c eid ok
  | error err => simp [hres]

/-- One external call to the contract, with all the environment inputs the
handler reads.  For the six handlers that validate fully before writing,
the raw handler already equals its dispatched form, so no revert wrapper is
needed for them. -/
inductive Op where
  | createEvent (caller now : ℕ) (name : String) (price total_tickets : ℕ)
      (metadata_cid : String)
  | buyTicket (caller payment now event_id : ℕ)
  | transferTicket (caller ticket_id to' : ℕ)
  | useTicket (caller ticket_id : ℕ)
  | cancelEvent (caller event_id : ℕ)
  | completeEvent (caller event_id : ℕ)
  | refundTicket (caller ticket_id : ℕ) (transfer_ok : Bool)
  | cancelTicket (caller ticket_id : ℕ) (transfer_ok : Bool)
  | withdrawEarnings (caller event_id : ℕ) (transfer_ok : Bool)

/-- The state after one dispatched external call. -/
def stepSt (op : Op) (s : State) : State :=
  match op with
  | .createEvent c n nm p t cid => (create_event s c n nm p t cid).2
  | .buyTicket c p n e => (buy_ticket s c p n e).2
  | .transferTicket c t dst => (transfer_ticket s c t dst).2
  | .useTicket c t => (use_ticket s c t).2
  | .cancelEvent c e => (cancel_event s c e).2
  | .completeEvent c e => (complete_event s c e).2
  | .refundTicket c t ok => (refund_ticket_call s c t ok).2.1
  | .cancelTicket c t ok => (cancel_ticket_call s c t ok).2.1
  | .withdrawEarnings c e ok => (withdraw_earnings_call s c e ok).2.1

/-- Run a sequence of external calls from a state. -/
def run (l : List Op) (s : State) : State :=
  l.foldl (fun s op => stepSt op s) s

/-- States reachable from a fresh deployment (admin `a`) by calls satisfying
the side condition `P` at each step.  `P := fun _ _ => True` gives plain
reachability. -/
inductive Reaches (P : Op → State → Prop) (a : ℕ) : State → Prop where
  | init : Reaches P a (new a)
  | step : ∀ s op, Reaches P a s → P op s → Reaches P a (stepSt op s)

/-- Plain reachability: any sequence of external calls. -/
def Reach (a : ℕ) (s : State) : Prop := Reaches (fun _ _ => True) a s

/-- Side condition: no ticket is ever minted while the ticket counter sits at
its saturation point `U64_MAX` (equivalently, at most `U64_MAX` tickets are
minted over the whole history). -/
def noTickSat : Op → State → Prop := fun op s =>
  match op with
  | .buyTicket _ _ _ _ => s.ticket_counter < U64_MAX
  | _ => True

/-- Side condition: no event is ever created while the event counter sits at
its saturation point `U64_MAX`. -/
def noEvSat : Op → State → Prop := fun op s =>
  match op with
  | .createEvent _ _ _ _ _ _ => s.event_counter < U64_MAX
  | _ => True

lemma run_append (l1 l2 : List Op) (s : State) :
    run (l1 ++ l2) s = run l2 (run l1 s) := by
  simp [run, List.foldl_append]

lemma run_cons (op : Op) (l : List Op) (s : State) :
    run (op :: l) s = run l (stepSt op s) := rfl

lemma reaches_run (P : Op → State → Prop) (a : ℕ) (l : List Op) (s : State)
    (hs : Reaches P a s) (hP : ∀ op s', P op s') : Reaches P a (run l s) := by
  induction l generalizing s with
  | nil => exact hs
  | cons op l ih =>
    rw [run_cons]
    exact ih _ (Reaches.step _ _ hs (hP op s))

lemma reach_run (a : ℕ) (l : List Op) : Reach a (run l (new a)) :=
  reaches_run _ a l _ Reaches.init (fun _ _ => trivial)

/-! Invariants over all reachable states. -/

/-- Flag discipline of a single event record: a terminal flag forces
`active = false`, and the two terminal flags are never both set. -/
def InvFlagsE (e : Event) : Prop :=
  ((e.cancelled = true ∨ e.completed = true) → e.active = false) ∧
  (e.cancelled = false ∨ e.completed = false)

/-- Every stored event respects the flag discipline. -/
def InvFlags (s : State) : Prop :=
  ∀ k e, s.events k = some e → InvFlagsE e

/-- Every stored live (non-refunded) ticket is a member of its owner's
ownership-index set. -/
def InvOwn (s : State) : Prop :=
  ∀ k t, s.tickets k = some t → t.is_refunded = false →
    k ∈ s.owner_tickets t.owner

lemma invFlags_mset (s : State) (k0 : ℕ) (e' : Event) (h : InvFlags s)
    (hp : InvFlagsE e') :
    ∀ k e, mset s.events k0 e' k = some e → InvFlagsE e := by
  intro k e hk
  by_cases hkk : k = k0
  · simp [mset, hkk] at hk
    exact hk ▸ hp
  · simp [mset, hkk] at hk
    exact h k e hk

lemma invFlags_step (op : Op) (s : State) (h : InvFlags s) :
    InvFlags (stepSt op s) := by
  cases op with
  | createEvent c n nm p t cid =>
    rcases create_state_cases s c n nm p t cid with heq | ⟨_, _, _, _, _, _, _, heq⟩
    · rw [stepSt, heq]; exact h
    · rw [stepSt, heq]
      exact invFlags_mset s _ _ h ⟨by simp, by simp⟩
  | buyTicket c p n eid =>
    rcases buy_state_cases s c p n eid with heq | ⟨e, he, ha, hc, hcm, _, _, _, heq⟩
    · rw [stepSt, heq]; exact h
    · rw [stepSt, heq]
      exact invFlags_mset s _ _ h ⟨by simp [hc, hcm], by simp [hc]⟩
  | transferTicket c t dst =>
    rcases transfer_state_cases s c t dst with heq | ⟨t0, _, _, _, _, _, heq⟩
    · rw [stepSt, heq]; exact h
    · rw [stepSt, heq]; exact h
  | useTicket c t =>
    rcases use_state_cases s c t with heq | ⟨t0, e, _, _, _, _, _, _, _, heq⟩
    · rw [stepSt, heq]; exact h
    · rw [stepSt, heq]; exact h
  | cancelEvent c eid =>
    rcases cancel_event_state_cases s c eid with ⟨err, heq⟩ | ⟨e, he, _, hc, hcm, heq⟩
    · rw [stepSt, heq]; exact h
    · rw [stepSt, heq]
      exact invFlags_mset s _ _ h ⟨by simp, by simp [hcm]⟩
  | completeEvent c eid =>
    rcases complete_event_state_cases s c eid with ⟨err, heq⟩ | ⟨e, he, _, hc, hcm, heq⟩
    · rw [stepSt, heq]; exact h
    · rw [stepSt, heq]
      exact invFlags_mset s _ _ h ⟨by simp, by simp [hc]⟩
  | refundTicket c t ok =>
    rcases refund_call_state_cases s c t ok with heq | ⟨t0, e, _, _, _, _, _, _, heq⟩
    · rw [stepSt, heq]; exact h
    · rw [stepSt, heq]; exact h
  | cancelTicket c t ok =>
    rcases cancel_call_state_cases s c t ok with heq | ⟨t0, e, ht0, _, _, _, he, _, _, _, heq⟩
    · rw [stepSt, heq]; exact h
    · rw [stepSt, heq]
      refine invFlags_mset s _ _ h ?_
      have := h _ _ he
      exact ⟨fun hf => this.1 (by simpa using hf), by simpa using this.2⟩
  | withdrawEarnings c eid ok =>
    rw [stepSt, withdraw_call_state]
    exact h

lemma invOwn_step (op : Op) (s : State) (h : InvOwn s) :
    InvOwn (stepSt op s) := by
  cases op with
  | createEvent c n nm p t cid =>
    rcases create_state_cases s c n nm p t cid with heq | ⟨_, _, _, _, _, _, _, heq⟩ <;>
      rw [stepSt, heq]
    · exact h
    · exact h
  | buyTicket c p n eid =>
    rcases buy_state_cases s c p n eid with heq | ⟨e, he, _, _, _, _, _, _, heq⟩
    · rw [stepSt, heq]; exact h
    · rw [stepSt, heq]
      intro k t hk hr
      unfold buySt at hk ⊢
      by_cases hkk : k = s.ticket_counter
      · simp [mset, hkk] at hk
        simp [sset, ← hk, hkk]
      · simp [mset, hkk] at hk
        have hmem := h k t hk hr
        simp only [sset]
        split_ifs with how
        · exact Finset.mem_insert_of_mem (how ▸ hmem)
        · exact hmem
  | transferTicket c tid dst =>
    rcases transfer_state_cases s c tid dst with heq | ⟨t0, ht0, how, hu, hrf, _, heq⟩
    · rw [stepSt, heq]; exact h
    · rw [stepSt, heq]
      intro k t hk hr
      unfold transferSt at hk ⊢
      by_cases hkk : k = tid
      · simp [mset, hkk] at hk
        simp [sset, ← hk, hkk]
      · simp [mset, hkk] at hk
        have hmem := h k t hk hr
        simp only [sset]
        split_ifs with h1 h2 h3
        · exact Finset.mem_insert_of_mem
            (by rw [← h2]; exact Finset.mem_erase_of_ne_of_mem hkk (h1 ▸ hmem))
        · exact Finset.mem_insert_of_mem (h1 ▸ hmem)
        · exact Finset.mem_erase_of_ne_of_mem hkk (h3 ▸ hmem)
        · exact hmem
  | useTicket c tid =>
    rcases use_state_cases s c tid with heq | ⟨t0, e, ht0, _, _, hrf, _, _, _, heq⟩
    · rw [stepSt, heq]; exact h
    · rw [stepSt, heq]
      intro k t hk hr
      unfold useSt at hk ⊢
      by_cases hkk : k = tid
      · simp [mset, hkk] at hk
        have hmem := h tid t0 ht0 hrf
        rw [← hk]
        exact hkk ▸ hmem
      · simp [mset, hkk] at hk
        exact h k t hk hr
  | cancelEvent c eid =>
    rcases cancel_event_state_cases s c eid with ⟨err, heq⟩ | ⟨e, _, _, _, _, heq⟩ <;>
      rw [stepSt, heq] <;> exact h
  | completeEvent c eid =>
    rcases complete_event_state_cases s c eid with ⟨err, heq⟩ | ⟨e, _, _, _, _, heq⟩ <;>
      rw [stepSt, heq] <;> exact h
  | refundTicket c tid ok =>
    rcases refund_call_state_cases s c tid ok with heq | ⟨t0, e, ht0, how, hrf, _, _, _, heq⟩
    · rw [stepSt, heq]; exact h
    · rw [stepSt, heq]
      intro k t hk hr
      unfold refundSt at hk ⊢
      by_cases hkk : k = tid
      · simp [mset, hkk] at hk
        rw [← hk] at hr
        simp at hr
      · simp [mset, hkk] at hk
        have hmem := h k t hk hr
        simp only [sset]
        split_ifs with h1
        · exact Finset.mem_erase_of_ne_of_mem hkk (h1 ▸ hmem)
        · exact hmem
  | cancelTicket c tid ok =>
    rcases cancel_call_state_cases s c tid ok with heq | ⟨t0, e, ht0, how, hrf, _, _, _, _, _, heq⟩
    · rw [stepSt, heq]; exact h
    · rw [stepSt, heq]
      intro k t hk hr
      unfold cancelTickSt at hk ⊢
      by_cases hkk : k = tid
      · simp [mset, hkk] at hk
        rw [← hk] at hr
        simp at hr
      · simp [mset, hkk] at hk
        have hmem := h k t hk hr
        simp only [sset]
        split_ifs with h1
        · exact Finset.mem_erase_of_ne_of_mem hkk (h1 ▸ hmem)
        · exact hmem
  | withdrawEarnings c eid ok =>
    rw [stepSt, withdraw_call_state]
    exact h

lemma inv_flags_own (P : Op → State → Prop) (a : ℕ) (s : State)
    (h : Reaches P a s) : InvFlags s ∧ InvOwn s := by
  induction h with
  | init =>
    constructor
    · intro k e hk
      exact nomatch hk
    · intro k t hk
      exact nomatch hk
  | step s' op _ _ ih =>
    exact ⟨invFlags_step op s' ih.1, invOwn_step op s' ih.2⟩

/-- Claim C1: whenever the transfer primitive fails inside `refund_ticket`,
`cancel_ticket` or `withdraw_earnings` (that is, whenever the call would have
succeeded had the transfer succeeded), the dispatched call returns
`TransferFailed`, pays out nothing, and leaves the contract state exactly as
it was before the call. -/
theorem C1_transfer_failure_atomicity (s : State) (caller id : ℕ) :
    ((refund_ticket s caller id true).1 = .ok () →
      refund_ticket_call s caller id false = (.error .TransferFailed, s, [])) ∧
    ((cancel_ticket s caller id true).1 = .ok () →
      cancel_ticket_call s caller id false = (.error .TransferFailed, s, [])) ∧
    ((withdraw_earnings s caller id true).1 = .ok () →
      withdraw_earnings_call s caller id false = (.error .TransferFailed, s, [])) := by
  refine ⟨?_, ?_, ?_⟩
  · intro h
    rcases refund_true_cases s caller id with hbad | ⟨t, e, ht, ho, hr, he, hc⟩
    · exact absurd h hbad
    · unfold refund_ticket_call
      rw [refund_ticket_ok s caller id false t e ht ho hr he hc]
      simp [revert3]
  · intro h
    rcases cancel_true_cases s caller id with hbad | ⟨t, e, ht, ho, hr, hu, he, hc, hcm⟩
    · exact absurd h hbad
    · unfold cancel_ticket_call
      rw [cancel_ticket_ok s caller id false t e ht ho hr hu he hc hcm]
      simp [revert3]
  · intro h
    rcases withdraw_true_cases s caller id with hbad | ⟨e, he, ho, hcm⟩
    · exact absurd h hbad
    · unfold withdraw_earnings_call
      rw [withdraw_earnings_ok s caller id false e he ho hcm]
      simp [revert3]

/-- A deployed state with a cancelled event and a refundable ticket. -/
def wRefundSt : State :=
  run [.createEvent 9 0 "n" 1000 100 "c", .buyTicket 7 1000 0 0, .cancelEvent 9 0] (new 0)

/-- A deployed state with an active event and a cancellable ticket. -/
def wCancelSt : State :=
  run [.createEvent 9 0 "n" 1000 100 "c", .buyTicket 7 1000 0 0] (new 0)

/-- A deployed state with a completed event with one sold ticket. -/
def wWithdrawSt : State :=
  run [.createEvent 9 0 "n" 5 3 "c", .buyTicket 7 5 0 0, .completeEvent 9 0] (new 0)

theorem C1_transfer_failure_atomicity_witness :
    (refund_ticket wRefundSt 7 0 true).1 = .ok () ∧
    refund_ticket_call wRefundSt 7 0 false = (.error .TransferFailed, wRefundSt, []) ∧
    (cancel_ticket wCancelSt 7 0 true).1 = .ok () ∧
    cancel_ticket_call wCancelSt 7 0 false = (.error .TransferFailed, wCancelSt, []) ∧
    (withdraw_earnings wWithdrawSt 9 0 true).1 = .ok () ∧
    withdraw_earnings_call wWithdrawSt 9 0 false = (.error .TransferFailed, wWithdrawSt, []) :=
  ⟨by rfl, (C1_transfer_failure_atomicity wRefundSt 7 0).1 (by rfl),
   by rfl, (C1_transfer_failure_atomicity wCancelSt 7 0).2.1 (by rfl),
   by rfl, (C1_transfer_failure_atomicity wWithdrawSt 9 0).2.2 (by rfl)⟩

/-- Claim C3: on a completed event, `withdraw_earnings` called by the
organizer succeeds, transfers `price × (total_tickets − available_tickets)`
(saturating multiplication) to the organizer, mutates nothing, and therefore
a second identical call succeeds and pays the same amount again. -/
theorem C3_withdraw_repeatable (s : State) (caller event_id : ℕ) (e : Event)
    (he : s.events event_id = some e) (hc : e.completed = true)
    (ho : caller = e.organizer) :
    withdraw_earnings s caller event_id true =
      (.ok (), s, [(caller, satMul128 e.price (e.total_tickets - e.available_tickets))]) ∧
    withdraw_earnings (withdraw_earnings s caller event_id true).2.1 caller event_id true =
      (.ok (), s, [(caller, satMul128 e.price (e.total_tickets - e.available_tickets))]) := by
  have h1 : withdraw_earnings s caller event_id true =
      (.ok (), s, [(caller, satMul128 e.price (e.total_tickets - e.available_tickets))]) := by
    rw [withdraw_earnings_ok s caller event_id true e he ho hc]
    simp
  refine ⟨h1, ?_⟩
  rw [h1]
  exact h1

/-- The completed event stored in `wWithdrawSt`. -/
def wWithdrawEv : Event :=
  { id := 0, name := "n", organizer := 9, price := 5, total_tickets := 3,
    available_tickets := 2, timestamp := 0, metadata_cid := "c",
    active := false, cancelled := false, completed := true }

theorem C3_withdraw_repeatable_witness :
    wWithdrawSt.events 0 = some wWithdrawEv ∧ wWithdrawEv.completed = true ∧
    (9 : ℕ) = wWithdrawEv.organizer ∧
    withdraw_earnings wWithdrawSt 9 0 true =
      (.ok (), wWithdrawSt,
        [(9, satMul128 wWithdrawEv.price
              (wWithdrawEv.total_tickets - wWithdrawEv.available_tickets))]) := by
  refine ⟨?_, ?_, ?_, ?_⟩
  · rfl
  · rfl
  · rfl
  · exact (C3_withdraw_repeatable wWithdrawSt 9 0 wWithdrawEv (by rfl) rfl rfl).1

/-- Claim C7: `create_event` returns `InvalidInput` exactly when one of the
four input bounds is violated, and on every valid input returns `Ok` and
stores an event with `available_tickets = total_tickets`, `active = true`,
`cancelled = false`, `completed = false`. -/
theorem C7_create_event_validation (s : State) (caller now : ℕ) (name : String)
    (price total_tickets : ℕ) (metadata_cid : String) :
    ((create_event s caller now name price total_tickets metadata_cid).1 =
        .error .InvalidInput ↔
      (name.length = 0 ∨ MAX_EVENT_NAME_LENGTH < name.length ∨
       metadata_cid.length = 0 ∨ MAX_METADATA_CID_LENGTH < metadata_cid.length ∨
       total_tickets = 0 ∨ MAX_TICKETS_PER_EVENT < total_tickets ∨
       price < MIN_TICKET_PRICE)) ∧
    (¬(name.length = 0 ∨ MAX_EVENT_NAME_LENGTH < name.length ∨
       metadata_cid.length = 0 ∨ MAX_METADATA_CID_LENGTH < metadata_cid.length ∨
       total_tickets = 0 ∨ MAX_TICKETS_PER_EVENT < total_tickets ∨
       price < MIN_TICKET_PRICE) →
      (create_event s caller now name price total_tickets metadata_cid).1 =
        .ok s.event_counter ∧
      ∃ e, (create_event s caller now name price total_tickets metadata_cid).2.events
              s.event_counter = some e ∧
        e.available_tickets = e.total_tickets ∧ e.total_tickets = total_tickets ∧
        e.active = true ∧ e.cancelled = false ∧ e.completed = false) := by
  unfold create_event
  split_ifs with h1 h2 h3 h4
  · exact ⟨iff_of_true rfl (by tauto), fun hn => absurd (by tauto) hn⟩
  · exact ⟨iff_of_true rfl (by tauto), fun hn => absurd (by tauto) hn⟩
  · exact ⟨iff_of_true rfl (by tauto), fun hn => absurd (by tauto) hn⟩
  · exact ⟨iff_of_true rfl (by tauto), fun hn => absurd (by tauto) hn⟩
  · refine ⟨iff_of_false (by simp) (by tauto), fun _ => ⟨rfl, ?_⟩⟩
    refine ⟨{ id := s.event_counter, name := name, organizer := caller,
              price := price, total_tickets := total_tickets,
              available_tickets := total_tickets, timestamp := now,
              metadata_cid := metadata_cid, active := true, cancelled := false,
              completed := false }, ?_, rfl, rfl, rfl, rfl, rfl⟩
    simp [mset]

theorem C7_create_event_validation_witness :
    ¬(("Conf" : String).length = 0 ∨ MAX_EVENT_NAME_LENGTH < ("Conf" : String).length ∨
       ("cidA" : String).length = 0 ∨ MAX_METADATA_CID_LENGTH < ("cidA" : String).length ∨
       (2 : ℕ) = 0 ∨ MAX_TICKETS_PER_EVENT < 2 ∨ (1000 : ℕ) < MIN_TICKET_PRICE) ∧
    (create_event (new 0) 9 0 "Conf" 1000 2 "cidA").1 = .ok 0 ∧
    ∃ e, (create_event (new 0) 9 0 "Conf" 1000 2 "cidA").2.events 0 = some e ∧
      e.available_tickets = e.total_tickets ∧ e.total_tickets = 2 ∧
      e.active = true ∧ e.cancelled = false ∧ e.completed = false := by
  have hvalid : ¬(("Conf" : String).length = 0 ∨
      MAX_EVENT_NAME_LENGTH < ("Conf" : String).length ∨
      ("cidA" : String).length = 0 ∨ MAX_METADATA_CID_LENGTH < ("cidA" : String).length ∨
      (2 : ℕ) = 0 ∨ MAX_TICKETS_PER_EVENT < 2 ∨ (1000 : ℕ) < MIN_TICKET_PRICE) := by
    decide
  exact ⟨hvalid, (C7_create_event_validation (new 0) 9 0 "Conf" 1000 2 "cidA").2 hvalid⟩

lemma mset_id {α : Type} (m : ℕ → Option α) (k : ℕ) (v : α) (h : m k = some v) :
    mset m k v = m := by
  funext j
  by_cases hj : j = k
  · simp [mset, hj, h]
  · simp [mset, hj]

lemma sset_override (m : ℕ → Finset ℕ) (k : ℕ) (x y : Finset ℕ) :
    sset (sset m k x) k y = sset m k y := by
  funext j
  by_cases hj : j = k <;> simp [sset, hj]

lemma sset_id (m : ℕ → Finset ℕ) (k : ℕ) :
    sset m k (m k) = m := by
  funext j
  by_cases hj : j = k <;> simp [sset, hj]

lemma transfer_ticket_ok (s : State) (caller ticket_id to' : ℕ) (t : Ticket)
    (ht : s.tickets ticket_id = some t) (ho : t.owner = caller)
    (hu : t.is_used = false) (hr : t.is_refunded = false)
    (hcard : (s.owner_tickets to').card < MAX_TICKETS_PER_USER) :
    transfer_ticket s caller ticket_id to' = (.ok (), transferSt s ticket_id t to') := by
  have hnc : ¬(MAX_TICKETS_PER_USER ≤ (s.owner_tickets to').card) := by omega
  unfold transfer_ticket
  rw [ht]
  simp [ho, hu, hr, hnc, transferSt]

lemma transfer_ticket_toomany (s : State) (caller ticket_id to' : ℕ) (t : Ticket)
    (ht : s.tickets ticket_id = some t) (ho : t.owner = caller)
    (hu : t.is_used = false) (hr : t.is_refunded = false)
    (hcard : MAX_TICKETS_PER_USER ≤ (s.owner_tickets to').card) :
    (transfer_ticket s caller ticket_id to').1 = .error .TooManyTickets := by
  unfold transfer_ticket
  rw [ht]
  simp [ho, hu, hr, hcard]

/-- Claim C9: in every reachable state, buying a ticket for an event whose
`cancelled` or `completed` flag is set fails with `EventNotActive` (never
`EventCancelled`/`EventCompleted`), because both terminal transitions force
`active := false` and `buy_ticket` checks `active` first. -/
theorem C9_terminal_buy_not_active (a : ℕ) (s : State) (hr : Reach a s)
    (event_id : ℕ) (e : Event) (he : s.events event_id = some e)
    (hterm : e.cancelled = true ∨ e.completed = true)
    (caller payment now : ℕ) :
    (buy_ticket s caller payment now event_id).1 = .error .EventNotActive := by
  have hact : e.active = false := ((inv_flags_own _ a s hr).1 event_id e he).1 hterm
  unfold buy_ticket
  rw [he]
  simp [hact]

/-- The cancelled event stored in the witness state for C9 and C5. -/
def wCancelledEv : Event :=
  { id := 0, name := "n", organizer := 9, price := 1000, total_tickets := 2,
    available_tickets := 2, timestamp := 0, metadata_cid := "c",
    active := false, cancelled := true, completed := false }

/-- The op list reaching a state with a cancelled event. -/
def wCancelledOps : List Op := [.createEvent 9 0 "n" 1000 2 "c", .cancelEvent 9 0]

theorem C9_terminal_buy_not_active_witness :
    (run wCancelledOps (new 0)).events 0 = some wCancelledEv ∧
    wCancelledEv.cancelled = true ∧
    (buy_ticket (run wCancelledOps (new 0)) 7 1000 0 0).1 = .error .EventNotActive := by
  refine ⟨by rfl, rfl, ?_⟩
  exact C9_terminal_buy_not_active 0 _ (reach_run 0 wCancelledOps) 0 wCancelledEv
    (by rfl) (Or.inl rfl) 7 1000 0

/-- Claim C6: in every reachable state, for an existing active event with
tickets available, `buy_ticket` rejects any payment different from the price
(in either direction) with `InsufficientPayment`, and succeeds only when the
payment equals the price exactly. -/
theorem C6_exact_payment (a : ℕ) (s : State) (hr : Reach a s)
    (event_id : ℕ) (e : Event) (he : s.events event_id = some e)
    (hact : e.active = true) (hav : e.available_tickets ≠ 0)
    (caller payment now : ℕ) :
    (payment ≠ e.price →
      (buy_ticket s caller payment now event_id).1 = .error .InsufficientPayment) ∧
    (∀ v, (buy_ticket s caller payment now event_id).1 = .ok v → payment = e.price) := by
  have hfl := (inv_flags_own _ a s hr).1 event_id e he
  have hc : e.cancelled = false := by
    rcases hcc : e.cancelled with _ | _
    · rfl
    · exact absurd (hfl.1 (Or.inl hcc)) (by simp [hact])
  have hcm : e.completed = false := by
    rcases hcc : e.completed with _ | _
    · rfl
    · exact absurd (hfl.1 (Or.inr hcc)) (by simp [hact])
  constructor
  · intro hne
    unfold buy_ticket
    rw [he]
    simp [hact, hc, hcm, hav, hne]
  · intro v hok
    by_cases hp : payment = e.price
    · exact hp
    · have : (buy_ticket s caller payment now event_id).1 =
          .error .InsufficientPayment := by
        unfold buy_ticket
        rw [he]
        simp [hact, hc, hcm, hav, hp]
      rw [this] at hok
      exact nomatch hok

/-- The active event stored in the witness state for C6. -/
def wActiveEv : Event :=
  { id := 0, name := "n", organizer := 9, price := 1000, total_tickets := 2,
    available_tickets := 2, timestamp := 0, metadata_cid := "c",
    active := true, cancelled := false, completed := false }

/-- The op list reaching a state with an active sellable event. -/
def wActiveOps : List Op := [.createEvent 9 0 "n" 1000 2 "c"]

theorem C6_exact_payment_witness :
    (run wActiveOps (new 0)).events 0 = some wActiveEv ∧
    wActiveEv.active = true ∧ wActiveEv.available_tickets ≠ 0 ∧
    (999 : ℕ) ≠ wActiveEv.price ∧ (1001 : ℕ) ≠ wActiveEv.price ∧
    (buy_ticket (run wActiveOps (new 0)) 7 999 0 0).1 = .error .InsufficientPayment ∧
    (buy_ticket (run wActiveOps (new 0)) 7 1001 0 0).1 = .error .InsufficientPayment := by
  refine ⟨by rfl, rfl, by decide, by decide, by decide, ?_, ?_⟩
  · exact (C6_exact_payment 0 _ (reach_run 0 wActiveOps) 0 wActiveEv (by rfl) rfl
      (by decide) 7 999 0).1 (by decide)
  · exact (C6_exact_payment 0 _ (reach_run 0 wActiveOps) 0 wActiveEv (by rfl) rfl
      (by decide) 7 1001 0).1 (by decide)

/-- Claim C5: in every reachable state, calling `cancel_event` or
`complete_event` (as the organizer) on an event already in a terminal state is
rejected — with `EventCancelled` when the event is cancelled and
`EventCompleted` when it is completed — and every successful call of either
sets the corresponding terminal flag and forces `active := false`. -/
theorem C5_terminal_transitions (a : ℕ) (s : State) (hr : Reach a s)
    (event_id : ℕ) (e : Event) (caller : ℕ) (he : s.events event_id = some e)
    (ho : caller = e.organizer) :
    (e.cancelled = true →
      (cancel_event s caller event_id).1 = .error .EventCancelled ∧
      (complete_event s caller event_id).1 = .error .EventCancelled) ∧
    (e.completed = true →
      (cancel_event s caller event_id).1 = .error .EventCompleted ∧
      (complete_event s caller event_id).1 = .error .EventCompleted) ∧
    (∀ s' c' id', (cancel_event s' c' id').1 = .ok () →
      ∃ e', (cancel_event s' c' id').2.events id' = some e' ∧
        e'.cancelled = true ∧ e'.active = false) ∧
    (∀ s' c' id', (complete_event s' c' id').1 = .ok () →
      ∃ e', (complete_event s' c' id').2.events id' = some e' ∧
        e'.completed = true ∧ e'.active = false) := by
  have hfl := (inv_flags_own _ a s hr).1 event_id e he
  refine ⟨?_, ?_, ?_, ?_⟩
  · intro hc
    constructor
    · unfold cancel_event
      rw [he]
      simp [ho, hc]
    · unfold complete_event
      rw [he]
      simp [ho, hc]
  · intro hcm
    have hc : e.cancelled = false := by
      rcases hfl.2 with h | h
      · exact h
      · rw [h] at hcm
        exact nomatch hcm
    constructor
    · unfold cancel_event
      rw [he]
      simp [ho, hc, hcm]
    · unfold complete_event
      rw [he]
      simp [ho, hc, hcm]
  · intro s' c' id' hok
    rcases cancel_event_state_cases s' c' id' with ⟨err, heq⟩ | ⟨e', _, _, _, _, heq⟩
    · rw [heq] at hok
      exact nomatch hok
    · rw [heq]
      exact ⟨{ e' with cancelled := true, active := false },
        by simp [cancelEvSt, mset], rfl, rfl⟩
  · intro s' c' id' hok
    rcases complete_event_state_cases s' c' id' with ⟨err, heq⟩ | ⟨e', _, _, _, _, heq⟩
    · rw [heq] at hok
      exact nomatch hok
    · rw [heq]
      exact ⟨{ e' with completed := true, active := false },
        by simp [completeEvSt, mset], rfl, rfl⟩

theorem C5_terminal_transitions_witness :
    (run wCancelledOps (new 0)).events 0 = some wCancelledEv ∧
    (9 : ℕ) = wCancelledEv.organizer ∧ wCancelledEv.cancelled = true ∧
    (cancel_event (run wCancelledOps (new 0)) 9 0).1 = .error .EventCancelled ∧
    (complete_event (run wCancelledOps (new 0)) 9 0).1 = .error .EventCancelled ∧
    (cancel_event (run wActiveOps (new 0)) 9 0).1 = .ok () := by
  have hmain := C5_terminal_transitions 0 _ (reach_run 0 wCancelledOps) 0
    wCancelledEv 9 (by rfl) rfl
  refine ⟨by rfl, rfl, rfl, (hmain.1 rfl).1, (hmain.1 rfl).2, by rfl⟩

/-- Claim C10: in every reachable state, a self-transfer of an owned, unused,
unrefunded ticket succeeds and leaves the whole contract state unchanged when
the caller's ownership set has fewer than 1000 elements, and fails with
`TooManyTickets` when it has exactly 1000. -/
theorem C10_self_transfer (a : ℕ) (s : State) (hr : Reach a s)
    (caller ticket_id : ℕ) (t : Ticket) (ht : s.tickets ticket_id = some t)
    (ho : t.owner = caller) (hu : t.is_used = false) (hrf : t.is_refunded = false) :
    ((s.owner_tickets caller).card < MAX_TICKETS_PER_USER →
      transfer_ticket s caller ticket_id caller = (.ok (), s)) ∧
    ((s.owner_tickets caller).card = MAX_TICKETS_PER_USER →
      (transfer_ticket s caller ticket_id caller).1 = .error .TooManyTickets) := by
  have hmem : ticket_id ∈ s.owner_tickets caller :=
    ho ▸ (inv_flags_own _ a s hr).2 ticket_id t ht hrf
  constructor
  · intro hcard
    rw [transfer_ticket_ok s caller ticket_id caller t ht ho hu hrf hcard]
    have htick : { t with owner := caller } = t := by
      rw [← ho]
    have hsets :
        sset (sset s.owner_tickets t.owner ((s.owner_tickets t.owner).erase ticket_id))
          caller (insert ticket_id
            ((sset s.owner_tickets t.owner
              ((s.owner_tickets t.owner).erase ticket_id)) caller)) =
        s.owner_tickets := by
      rw [ho, sset_override]
      have happ :
          (sset s.owner_tickets caller ((s.owner_tickets caller).erase ticket_id)) caller =
            (s.owner_tickets caller).erase ticket_id := by
        simp [sset]
      rw [happ, Finset.insert_erase hmem, sset_id]
    unfold transferSt
    rw [htick, mset_id s.tickets ticket_id t ht, hsets]
  · intro hcard
    exact transfer_ticket_toomany s caller ticket_id caller t ht ho hu hrf (le_of_eq hcard.symm)

/-- The live ticket stored in the witness state for C10. -/
def wLiveTicket : Ticket :=
  { id := 0, event_id := 0, owner := 7, purchase_time := 0,
    is_used := false, is_refunded := false }

/-- The op list reaching a state where account 7 holds live ticket 0. -/
def wBuyOps : List Op := [.createEvent 9 0 "n" 1000 2 "c", .buyTicket 7 1000 0 0]

theorem C10_self_transfer_witness :
    (run wBuyOps (new 0)).tickets 0 = some wLiveTicket ∧
    wLiveTicket.owner = 7 ∧ wLiveTicket.is_used = false ∧
    wLiveTicket.is_refunded = false ∧
    ((run wBuyOps (new 0)).owner_tickets 7).card < MAX_TICKETS_PER_USER ∧
    transfer_ticket (run wBuyOps (new 0)) 7 0 7 = (.ok (), run wBuyOps (new 0)) := by
  have hcard : ((run wBuyOps (new 0)).owner_tickets 7).card < MAX_TICKETS_PER_USER := by
    decide
  refine ⟨by rfl, rfl, rfl, rfl, hcard, ?_⟩
  exact (C10_self_transfer 0 _ (reach_run 0 wBuyOps) 7 0 wLiveTicket (by rfl) rfl
    rfl rfl).1 hcard

/-- The op list reaching a state whose ticket 0 is both used and refunded:
the ticket is used at the gate, the event is cancelled, and the owner then
refunds the used ticket. -/
def wUsedRefundedOps : List Op :=
  [.createEvent 9 0 "n" 1000 2 "c", .buyTicket 7 1000 0 0, .useTicket 9 0,
   .cancelEvent 9 0, .refundTicket 7 0 true]

/-- The used-and-refunded ticket stored in that state. -/
def wUsedRefundedTicket : Ticket :=
  { id := 0, event_id := 0, owner := 7, purchase_time := 0,
    is_used := true, is_refunded := true }

/-- Claim C4, counterexample to its error-code clause: on a reachable state
holding a used AND refunded ticket, `cancel_ticket` called by the owner fails,
but with `TicketAlreadyRefunded`, not `TicketAlreadyUsed` — the refunded check
runs first — so "cancel_ticket always fails with TicketAlreadyUsed on a ticket
whose is_used is true" is false as stated. -/
theorem C4_counterexample :
    (run wUsedRefundedOps (new 0)).tickets 0 = some wUsedRefundedTicket ∧
    wUsedRefundedTicket.is_used = true ∧ wUsedRefundedTicket.owner = 7 ∧
    (cancel_ticket (run wUsedRefundedOps (new 0)) 7 0 true).1 =
      .error .TicketAlreadyRefunded ∧
    Error.TicketAlreadyRefunded ≠ Error.TicketAlreadyUsed := by
  exact ⟨by rfl, rfl, rfl, by rfl, by decide⟩

/-- Claim C4 (amended): a used-and-refunded ticket can only be produced by
`refund_ticket` on a ticket of a cancelled event (no other call creates one);
`refund_ticket` does not test `is_used`, so a used ticket of a cancelled event
is refundable; and `cancel_ticket` never succeeds on a used ticket — failing
precisely with `TicketAlreadyUsed` when the caller owns the ticket and it is
not yet refunded. -/
theorem C4_used_refunded_provenance :
    (∀ (s : State) (op : Op) (k : ℕ) (t' : Ticket),
      (stepSt op s).tickets k = some t' → t'.is_used = true → t'.is_refunded = true →
      (∃ t, s.tickets k = some t ∧ t.is_used = true ∧ t.is_refunded = true) ∨
      (∃ c, op = Op.refundTicket c k true ∧
        ∃ t e, s.tickets k = some t ∧ s.events t.event_id = some e ∧
          e.cancelled = true)) ∧
    (∀ (s : State) (c id : ℕ) (t : Ticket) (e : Event),
      s.tickets id = some t → t.owner = c → t.is_refunded = false →
      s.events t.event_id = some e → e.cancelled = true →
      (refund_ticket s c id true).1 = .ok ()) ∧
    (∀ (s : State) (c id : ℕ) (t : Ticket) (ok : Bool),
      s.tickets id = some t → t.is_used = true →
      (cancel_ticket s c id ok).1 ≠ .ok ()) ∧
    (∀ (s : State) (c id : ℕ) (t : Ticket) (ok : Bool),
      s.tickets id = some t → t.owner = c → t.is_refunded = false →
      t.is_used = true →
      (cancel_ticket s c id ok).1 = .error .TicketAlreadyUsed) := by
  refine ⟨?_, ?_, ?_, ?_⟩
  · intro s op k t' hk hu hrf
    cases op with
    | createEvent c n nm p t cid =>
      simp only [stepSt] at hk
      rcases create_state_cases s c n nm p t cid with heq | ⟨_, _, _, _, _, _, _, heq⟩ <;>
        rw [heq] at hk
      · exact Or.inl ⟨t', hk, hu, hrf⟩
      · exact Or.inl ⟨t', hk, hu, hrf⟩
    | buyTicket c p n eid =>
      simp only [stepSt] at hk
      rcases buy_state_cases s c p n eid with heq | ⟨e, _, _, _, _, _, _, _, heq⟩ <;>
        rw [heq] at hk
      · exact Or.inl ⟨t', hk, hu, hrf⟩
      · by_cases hkk : k = s.ticket_counter
        · rw [buySt] at hk
          simp [mset, hkk] at hk
          rw [← hk] at hu
          exact nomatch hu
        · rw [buySt] at hk
          simp [mset, hkk] at hk
          exact Or.inl ⟨t', hk, hu, hrf⟩
    | transferTicket c tid dst =>
      simp only [stepSt] at hk
      rcases transfer_state_cases s c tid dst with heq | ⟨t0, ht0, _, hu0, _, _, heq⟩ <;>
        rw [heq] at hk
      · exact Or.inl ⟨t', hk, hu, hrf⟩
      · by_cases hkk : k = tid
        · rw [transferSt] at hk
          simp [mset, hkk] at hk
          rw [← hk] at hu
          simp [hu0] at hu
        · rw [transferSt] at hk
          simp [mset, hkk] at hk
          exact Or.inl ⟨t', hk, hu, hrf⟩
    | useTicket c tid =>
      simp only [stepSt] at hk
      rcases use_state_cases s c tid with heq | ⟨t0, e, ht0, _, _, hrf0, _, _, _, heq⟩ <;>
        rw [heq] at hk
      · exact Or.inl ⟨t', hk, hu, hrf⟩
      · by_cases hkk : k = tid
        · rw [useSt] at hk
          simp [mset, hkk] at hk
          rw [← hk] at hrf
          simp [hrf0] at hrf
        · rw [useSt] at hk
          simp [mset, hkk] at hk
          exact Or.inl ⟨t', hk, hu, hrf⟩
    | cancelEvent c eid =>
      simp only [stepSt] at hk
      rcases cancel_event_state_cases s c eid with ⟨err, heq⟩ | ⟨e, _, _, _, _, heq⟩ <;>
        rw [heq] at hk
      · exact Or.inl ⟨t', hk, hu, hrf⟩
      · exact Or.inl ⟨t', hk, hu, hrf⟩
    | completeEvent c eid =>
      simp only [stepSt] at hk
      rcases complete_event_state_cases s c eid with ⟨err, heq⟩ | ⟨e, _, _, _, _, heq⟩ <;>
        rw [heq] at hk
      · exact Or.inl ⟨t', hk, hu, hrf⟩
      · exact Or.inl ⟨t', hk, hu, hrf⟩
    | refundTicket c tid ok =>
      rcases refund_call_state_cases s c tid ok with heq | ⟨t0, e, ht0, _, _, he, hc, hok, heq⟩
      · rw [stepSt] at hk
        rw [heq] at hk
        exact Or.inl ⟨t', hk, hu, hrf⟩
      · rw [stepSt] at hk
        rw [heq] at hk
        by_cases hkk : k = tid
        · rw [refundSt] at hk
          simp [mset, hkk] at hk
          subst hkk
          rw [← hk] at hu
          right
          exact ⟨c, by rw [hok], t0, e, ht0, he, hc⟩
        · rw [refundSt] at hk
          simp [mset, hkk] at hk
          exact Or.inl ⟨t', hk, hu, hrf⟩
    | cancelTicket c tid ok =>
      rcases cancel_call_state_cases s c tid ok with heq | ⟨t0, e, ht0, _, _, hu0, he, _, _, _, heq⟩
      · rw [stepSt] at hk
        rw [heq] at hk
        exact Or.inl ⟨t', hk, hu, hrf⟩
      · rw [stepSt] at hk
        rw [heq] at hk
        by_cases hkk : k = tid
        · rw [cancelTickSt] at hk
          simp [mset, hkk] at hk
          rw [← hk] at hu
          simp [hu0] at hu
        · rw [cancelTickSt] at hk
          simp [mset, hkk] at hk
          exact Or.inl ⟨t', hk, hu, hrf⟩
    | withdrawEarnings c eid ok =>
      rw [stepSt, withdraw_call_state] at hk
      exact Or.inl ⟨t', hk, hu, hrf⟩
  · intro s c id t e ht ho hrf he hc
    rw [refund_ticket_ok s c id true t e ht ho hrf he hc]
    simp
  · intro s c id t ok ht hu
    unfold cancel_ticket
    rw [ht]
    by_cases h1 : t.owner ≠ c
    · simp [h1]
    · by_cases h2 : t.is_refunded = true
      · simp [h1, h2]
      · simp [h1, h2, hu]
  · intro s c id t ok ht ho hrf hu
    unfold cancel_ticket
    rw [ht]
    simp [ho, hrf, hu]

theorem C4_used_refunded_provenance_witness :
    (run wCancelledOps (new 0)).tickets 99 = none ∧
    (run wUsedRefundedOps (new 0)).tickets 0 = some wUsedRefundedTicket ∧
    wUsedRefundedTicket.is_used = true ∧
    (cancel_ticket (run wUsedRefundedOps (new 0)) 7 0 true).1 ≠ .ok () ∧
    (refund_ticket (run [.createEvent 9 0 "n" 1000 2 "c", .buyTicket 7 1000 0 0,
        .useTicket 9 0, .cancelEvent 9 0] (new 0)) 7 0 true).1 = .ok () := by
  refine ⟨by rfl, by rfl, rfl, ?_, ?_⟩
  · exact (C4_used_refunded_provenance).2.2.1 _ 7 0 wUsedRefundedTicket true
      (by rfl) rfl
  · exact (C4_used_refunded_provenance).2.1 _ 7 0
      { id := 0, event_id := 0, owner := 7, purchase_time := 0,
        is_used := true, is_refunded := false }
      { id := 0, name := "n", organizer := 9, price := 1000, total_tickets := 2,
        available_tickets := 1, timestamp := 0, metadata_cid := "c",
        active := false, cancelled := true, completed := false }
      (by rfl) rfl rfl (by rfl) rfl

/-! Index consistency (claim C2).  The invariant holds as long as no ticket
is ever minted while the ticket counter sits at `U64_MAX`: a mint at the
saturated counter reuses ticket ID `U64_MAX` and can corrupt the index (see
the counterexample below). -/

lemma satAdd64_of_lt {n : ℕ} (h : n < U64_MAX) : satAdd64 n = n + 1 :=
  min_eq_left (Nat.succ_le_of_lt h)

/-- The ownership index is exactly the set of live tickets per account. -/
def InvIdx (s : State) : Prop :=
  ∀ a k, k ∈ s.owner_tickets a ↔
    ∃ t, s.tickets k = some t ∧ t.owner = a ∧ t.is_refunded = false

/-- All ticket keys are below the ticket counter. -/
def InvTickKeys (s : State) : Prop :=
  ∀ k, s.tickets k ≠ none → k < s.ticket_counter

lemma insert_sets_mem (S : ℕ → Finset ℕ) (c tid : ℕ) (hnot : ∀ a, tid ∉ S a)
    (a k : ℕ) :
    (k ∈ sset S c (insert tid (S c)) a) ↔ ((k = tid ∧ a = c) ∨ k ∈ S a) := by
  by_cases hk : k = tid
  · subst hk
    simp only [sset]
    split_ifs with h1
    · simp [h1]
    · simp [h1, hnot a]
  · simp only [sset]
    split_ifs with h1
    · subst h1
      simp [Finset.mem_insert, hk]
    · simp [hk, h1]

lemma erase_sets_mem (S : ℕ → Finset ℕ) (own tid : ℕ)
    (hmem : ∀ a, tid ∈ S a ↔ a = own) (a k : ℕ) :
    (k ∈ sset S own ((S own).erase tid) a) ↔ (k ≠ tid ∧ k ∈ S a) := by
  by_cases hk : k = tid
  · subst hk
    simp only [sset]
    split_ifs with h1
    · subst h1
      simp
    · simp [hmem a, h1]
  · simp only [sset]
    split_ifs with h1
    · subst h1
      simp [Finset.mem_erase, hk]
    · simp [hk]

lemma transfer_sets_mem (S : ℕ → Finset ℕ) (own dst tid : ℕ)
    (hmem : ∀ a, tid ∈ S a ↔ a = own) (a k : ℕ) :
    (k ∈ sset (sset S own ((S own).erase tid)) dst
        (insert tid ((sset S own ((S own).erase tid)) dst)) a) ↔
    ((k = tid ∧ a = dst) ∨ (k ≠ tid ∧ k ∈ S a)) := by
  by_cases hk : k = tid
  · subst hk
    simp only [sset]
    split_ifs with h1 h2 h3
    · simp [h1]
    · simp [h1]
    · simp [h1]
    · simp [hmem a, h1, h3]
  · simp only [sset]
    split_ifs with h1 h2 h3
    · simp [Finset.mem_insert, Finset.mem_erase, hk, h1, h2]
    · simp [Finset.mem_insert, hk, h1]
    · simp [Finset.mem_erase, hk, h3]
    · simp [hk]

lemma invIdx_mem_unique (s : State) (h1 : InvIdx s) (tid : ℕ) (t0 : Ticket)
    (ht0 : s.tickets tid = some t0) (hrf0 : t0.is_refunded = false) :
    ∀ a, tid ∈ s.owner_tickets a ↔ a = t0.owner := by
  intro a
  rw [h1 a tid]
  constructor
  · rintro ⟨t', ht', hown, _⟩
    rw [ht0] at ht'
    cases ht'
    exact hown.symm
  · rintro rfl
    exact ⟨t0, ht0, rfl, hrf0⟩

lemma invIdx_step (op : Op) (s : State) (hP : noTickSat op s)
    (h1 : InvIdx s) (h2 : InvTickKeys s) :
    InvIdx (stepSt op s) ∧ InvTickKeys (stepSt op s) := by
  cases op with
  | createEvent c n nm p t cid =>
    rcases create_state_cases s c n nm p t cid with heq | ⟨_, _, _, _, _, _, _, heq⟩ <;>
      rw [stepSt, heq] <;> exact ⟨h1, h2⟩
  | buyTicket c p n eid =>
    have hsat : s.ticket_counter < U64_MAX := hP
    rcases buy_state_cases s c p n eid with heq | ⟨e, he, _, _, _, _, _, _, heq⟩
    · rw [stepSt, heq]; exact ⟨h1, h2⟩
    · rw [stepSt, heq]
      have hfresh : s.tickets s.ticket_counter = none := by
        by_contra hc
        exact absurd (h2 _ hc) (lt_irrefl _)
      have hnot : ∀ a, s.ticket_counter ∉ s.owner_tickets a := by
        intro a hmem
        obtain ⟨t', ht', _, _⟩ := (h1 a _).1 hmem
        rw [hfresh] at ht'
        exact nomatch ht'
      constructor
      · intro a k
        unfold buySt
        rw [insert_sets_mem s.owner_tickets c s.ticket_counter hnot a k]
        by_cases hkk : k = s.ticket_counter
        · subst hkk
          simp [mset, hnot a]
          exact eq_comm
        · simp only [mset, if_neg hkk]
          simp [hkk, h1 a k]
      · intro k hk
        unfold buySt at hk ⊢
        dsimp only at hk ⊢
        simp only [mset] at hk
        rw [satAdd64_of_lt hsat]
        by_cases hkk : k = s.ticket_counter
        · omega
        · rw [if_neg hkk] at hk
          exact Nat.lt_succ_of_lt (h2 k hk)
  | transferTicket c tid dst =>
    rcases transfer_state_cases s c tid dst with heq | ⟨t0, ht0, how, hu0, hrf0, _, heq⟩
    · rw [stepSt, heq]; exact ⟨h1, h2⟩
    · rw [stepSt, heq]
      have hmem := invIdx_mem_unique s h1 tid t0 ht0 hrf0
      constructor
      · intro a k
        unfold transferSt
        rw [transfer_sets_mem s.owner_tickets t0.owner dst tid hmem a k]
        by_cases hkk : k = tid
        · subst hkk
          simp [mset, hrf0]
          exact eq_comm
        · simp only [mset, if_neg hkk]
          simp [hkk, h1 a k]
      · intro k hk
        unfold transferSt at hk ⊢
        simp only [mset] at hk
        by_cases hkk : k = tid
        · subst hkk
          exact h2 _ (by simp [ht0])
        · rw [if_neg hkk] at hk
          exact h2 k hk
  | useTicket c tid =>
    rcases use_state_cases s c tid with heq | ⟨t0, e, ht0, _, _, hrf0, _, _, _, heq⟩
    · rw [stepSt, heq]; exact ⟨h1, h2⟩
    · rw [stepSt, heq]
      constructor
      · intro a k
        unfold useSt
        rw [h1 a k]
        by_cases hkk : k = tid
        · simp [mset, hkk, ht0]
        · simp [mset, hkk]
      · intro k hk
        unfold useSt at hk ⊢
        simp only [mset] at hk
        by_cases hkk : k = tid
        · subst hkk
          exact h2 _ (by simp [ht0])
        · rw [if_neg hkk] at hk
          exact h2 k hk
  | cancelEvent c eid =>
    rcases cancel_event_state_cases s c eid with ⟨err, heq⟩ | ⟨e, _, _, _, _, heq⟩ <;>
      rw [stepSt, heq] <;> exact ⟨h1, h2⟩
  | completeEvent c eid =>
    rcases complete_event_state_cases s c eid with ⟨err, heq⟩ | ⟨e, _, _, _, _, heq⟩ <;>
      rw [stepSt, heq] <;> exact ⟨h1, h2⟩
  | refundTicket c tid ok =>
    rcases refund_call_state_cases s c tid ok with heq | ⟨t0, e, ht0, how, hrf0, _, _, _, heq⟩
    · rw [stepSt, heq]; exact ⟨h1, h2⟩
    · rw [stepSt, heq]
      have hmem := invIdx_mem_unique s h1 tid t0 ht0 hrf0
      constructor
      · intro a k
        unfold refundSt
        rw [how] at hmem
        rw [erase_sets_mem s.owner_tickets c tid hmem a k]
        by_cases hkk : k = tid
        · simp [mset, hkk]
        · simp only [mset, if_neg hkk]
          simp [hkk, h1 a k]
      · intro k hk
        unfold refundSt at hk ⊢
        simp only [mset] at hk
        by_cases hkk : k = tid
        · subst hkk
          exact h2 _ (by simp [ht0])
        · rw [if_neg hkk] at hk
          exact h2 k hk
  | cancelTicket c tid ok =>
    rcases cancel_call_state_cases s c tid ok with heq | ⟨t0, e, ht0, how, hrf0, _, _, _, _, _, heq⟩
    · rw [stepSt, heq]; exact ⟨h1, h2⟩
    · rw [stepSt, heq]
      have hmem := invIdx_mem_unique s h1 tid t0 ht0 hrf0
      constructor
      · intro a k
        unfold cancelTickSt
        rw [how] at hmem
        rw [erase_sets_mem s.owner_tickets c tid hmem a k]
        by_cases hkk : k = tid
        · simp [mset, hkk]
        · simp only [mset, if_neg hkk]
          simp [hkk, h1 a k]
      · intro k hk
        unfold cancelTickSt at hk ⊢
        simp only [mset] at hk
        by_cases hkk : k = tid
        · subst hkk
          exact h2 _ (by simp [ht0])
        · rw [if_neg hkk] at hk
          exact h2 k hk
  | withdrawEarnings c eid ok =>
    rw [stepSt, withdraw_call_state]
    exact ⟨h1, h2⟩

lemma invIdx_reaches (a : ℕ) (s : State) (h : Reaches noTickSat a s) :
    InvIdx s ∧ InvTickKeys s := by
  induction h with
  | init =>
    constructor
    · intro acct k
      simp only [new]
      constructor
      · intro hmem
        exact absurd hmem (Finset.not_mem_empty k)
      · rintro ⟨t', ht', _, _⟩
        exact nomatch ht'
    · intro k hk
      exact absurd rfl hk
  | step s' op _ hPs ih =>
    exact invIdx_step op s' hPs ih.1 ih.2

/-- Claim C2 (amended): after every sequence of calls in which no ticket is
minted while the ticket counter is saturated at `U64_MAX` (that is, at most
`2^64 − 1` tickets are ever minted), `get_my_tickets account` is a
duplicate-free list containing exactly the ticket IDs whose stored ticket has
`owner = account` and `is_refunded = false` (used tickets included). -/
theorem C2_index_consistency_unsaturated (a : ℕ) (s : State)
    (h : Reaches noTickSat a s) (acct k : ℕ) :
    (k ∈ get_my_tickets s acct ↔
      ∃ t, s.tickets k = some t ∧ t.owner = acct ∧ t.is_refunded = false) ∧
    (get_my_tickets s acct).Nodup := by
  constructor
  · rw [get_my_tickets, Finset.mem_sort]
    exact (invIdx_reaches a s h).1 acct k
  · exact Finset.sort_nodup _ _

theorem C2_index_consistency_unsaturated_witness :
    (0 ∈ get_my_tickets (run wBuyOps (new 0)) 7 ↔
      ∃ t, (run wBuyOps (new 0)).tickets 0 = some t ∧ t.owner = 7 ∧
        t.is_refunded = false) ∧
    (get_my_tickets (run wBuyOps (new 0)) 7).Nodup := by
  have h1 : Reaches noTickSat 0 (stepSt (.createEvent 9 0 "n" 1000 2 "c") (new 0)) :=
    Reaches.step _ _ Reaches.init trivial
  have h2 : Reaches noTickSat 0 (stepSt (.buyTicket 7 1000 0 0)
      (stepSt (.createEvent 9 0 "n" 1000 2 "c") (new 0))) :=
    Reaches.step _ _ h1 (show (0 : ℕ) < U64_MAX by decide)
  exact C2_index_consistency_unsaturated 0 _ h2 7 0

/-! Counterexample to claim C2 as stated: with `2^64 − 1` mint-and-cancel
rounds the ticket counter saturates, after which `buy_ticket` re-issues
ticket ID `U64_MAX`; a second buyer then overwrites the first buyer's ticket
record while the first buyer's index entry survives, so `get_my_tickets` no
longer matches ticket ownership. -/

lemma create_event_ok (s : State) (caller now : ℕ) (name : String)
    (price total_tickets : ℕ) (metadata_cid : String)
    (h1 : name.length ≠ 0) (h2 : name.length ≤ MAX_EVENT_NAME_LENGTH)
    (h3 : metadata_cid.length ≠ 0) (h4 : metadata_cid.length ≤ MAX_METADATA_CID_LENGTH)
    (h5 : total_tickets ≠ 0) (h6 : total_tickets ≤ MAX_TICKETS_PER_EVENT)
    (h7 : MIN_TICKET_PRICE ≤ price) :
    create_event s caller now name price total_tickets metadata_cid =
      (.ok s.event_counter, createSt s caller now name price total_tickets metadata_cid) := by
  unfold create_event createSt
  rw [if_neg (by omega), if_neg (by omega), if_neg (by omega), if_neg (by omega)]

lemma buy_ticket_ok (s : State) (caller payment now event_id : ℕ) (e : Event)
    (he : s.events event_id = some e) (ha : e.active = true) (hc : e.cancelled = false)
    (hcm : e.completed = false) (hav : e.available_tickets ≠ 0) (hp : payment = e.price)
    (hcard : (s.owner_tickets caller).card < MAX_TICKETS_PER_USER) :
    buy_ticket s caller payment now event_id =
      (.ok s.ticket_counter, buySt s caller now event_id e) := by
  have hnc : ¬(MAX_TICKETS_PER_USER ≤ (s.owner_tickets caller).card) := by omega
  unfold buy_ticket buySt
  rw [he]
  simp [ha, hc, hcm, hav, hp, hnc]

/-- The single event of the C2 counterexample run. -/
def cexEv : Event :=
  { id := 0, name := "n", organizer := 9, price := 1, total_tickets := 2,
    available_tickets := 2, timestamp := 0, metadata_cid := "c",
    active := true, cancelled := false, completed := false }

/-- Ticket `j` of the C2 counterexample run, after its cancellation. -/
def cexDead (j : ℕ) : Ticket :=
  { id := j, event_id := 0, owner := 7, purchase_time := 0,
    is_used := false, is_refunded := true }

/-- The freshly-minted ticket `n` of the C2 counterexample run. -/
def cexFresh (n : ℕ) : Ticket :=
  { id := n, event_id := 0, owner := 7, purchase_time := 0,
    is_used := false, is_refunded := false }

/-- The state after the event creation and `n` buy-then-cancel rounds. -/
def cexSt (n : ℕ) : State :=
  { event_counter := 1, ticket_counter := n,
    events := fun j => if j = 0 then some cexEv else none,
    tickets := fun j => if j < n then some (cexDead j) else none,
    owner_tickets := fun _ => ∅, admin := 0 }

/-- One buy-then-cancel round (round `k` cancels ticket `k`). -/
def cexPair (k : ℕ) : List Op := [.buyTicket 7 1 0 0, .cancelTicket 7 k true]

lemma cex_start : stepSt (.createEvent 9 0 "n" 1 2 "c") (new 0) = cexSt 0 := by
  rw [stepSt, create_event_ok (new 0) 9 0 "n" 1 2 "c" (by decide) (by decide)
    (by decide) (by decide) (by decide) (by decide) (by decide)]
  ext j <;> simp [createSt, cexSt, new, mset, cexEv, satAdd64, U64_MAX]

lemma cex_pair_step (n : ℕ) (hn : n < U64_MAX) :
    run (cexPair n) (cexSt n) = cexSt (n + 1) := by
  have hbuy : buy_ticket (cexSt n) 7 1 0 0 =
      (.ok n, buySt (cexSt n) 7 0 0 cexEv) :=
    buy_ticket_ok (cexSt n) 7 1 0 0 cexEv rfl rfl rfl rfl (by decide) rfl
      (by simp [cexSt, MAX_TICKETS_PER_USER])
  have hstep1 : run (cexPair n) (cexSt n) =
      stepSt (.cancelTicket 7 n true) (buySt (cexSt n) 7 0 0 cexEv) := by
    show stepSt (.cancelTicket 7 n true) (stepSt (.buyTicket 7 1 0 0) (cexSt n)) = _
    rw [stepSt, hbuy]
  rw [hstep1]
  have ht : (buySt (cexSt n) 7 0 0 cexEv).tickets n = some (cexFresh n) := by
    simp [buySt, cexSt, mset, cexFresh]
  have he : (buySt (cexSt n) 7 0 0 cexEv).events (cexFresh n).event_id =
      some { cexEv with available_tickets := cexEv.available_tickets - 1 } := by
    simp [buySt, cexSt, mset, cexFresh]
  have hcancel := cancel_ticket_ok (buySt (cexSt n) 7 0 0 cexEv) 7 n true
    (cexFresh n) { cexEv with available_tickets := cexEv.available_tickets - 1 }
    ht rfl rfl rfl he rfl rfl
  rw [stepSt, cancel_ticket_call, hcancel]
  simp only [revert3, if_pos rfl]
  show cancelTickSt (buySt (cexSt n) 7 0 0 cexEv) 7 n (cexFresh n)
      { cexEv with available_tickets := cexEv.available_tickets - 1 } = cexSt (n + 1)
  refine State.ext ?_ ?_ ?_ ?_ ?_ ?_
  · simp [cancelTickSt, buySt, cexSt]
  · simp [cancelTickSt, buySt, cexSt, satAdd64_of_lt hn]
  · funext j
    by_cases hj : j = 0 <;>
      simp [cancelTickSt, buySt, cexSt, mset, cexFresh, hj, cexEv, satAdd32, U32_MAX]
  · funext j
    simp only [cancelTickSt, buySt, cexSt, mset, cexFresh, cexDead]
    split_ifs <;> first | rfl | omega | (exfalso; omega) | simp_all
  · funext a
    by_cases ha : a = 7 <;>
      simp [cancelTickSt, buySt, cexSt, sset, ha, Finset.erase_insert]
  · simp [cancelTickSt, buySt, cexSt]

lemma satAdd64_max : satAdd64 U64_MAX = U64_MAX := min_eq_right (Nat.le_succ _)

lemma cex_pairs_run (n : ℕ) (hn : n ≤ U64_MAX) :
    run ((List.range n).flatMap cexPair) (cexSt 0) = cexSt n := by
  induction n with
  | zero => rfl
  | succ m ih =>
    have hsplit : (List.range (m + 1)).flatMap cexPair =
        (List.range m).flatMap cexPair ++ cexPair m := by
      rw [List.range_succ]
      simp
    rw [hsplit, run_append, ih (by omega)]
    exact cex_pair_step m (by omega)

/-- The full C2 counterexample call sequence: create the event, run
`2^64 − 1` buy-then-cancel rounds to saturate the ticket counter, then let
account 7 buy (minting ticket `U64_MAX`) and account 8 buy (minting ticket
`U64_MAX` again, overwriting account 7's ticket record). -/
def cexOps : List Op :=
  .createEvent 9 0 "n" 1 2 "c" ::
    ((List.range U64_MAX).flatMap cexPair ++ [.buyTicket 7 1 0 0, .buyTicket 8 1 0 0])

/-- Claim C2, counterexample as stated: in the reachable state
`run cexOps (new 0)`, `get_my_tickets 7` returns `[U64_MAX]`, yet the stored
ticket `U64_MAX` is owned by account 8 and is not refunded — the index does
not equal the set of ticket IDs owned by account 7 with
`is_refunded = false`. -/
theorem C2_counterexample :
    get_my_tickets (run cexOps (new 0)) 7 = [U64_MAX] ∧
    (run cexOps (new 0)).tickets U64_MAX =
      some { id := U64_MAX, event_id := 0, owner := 8, purchase_time := 0,
             is_used := false, is_refunded := false } ∧
    (8 : ℕ) ≠ 7 := by
  have hrun : run cexOps (new 0) =
      buySt (buySt (cexSt U64_MAX) 7 0 0 cexEv) 8 0 0
        { cexEv with available_tickets := cexEv.available_tickets - 1 } := by
    have h0 : run cexOps (new 0) =
        run [.buyTicket 7 1 0 0, .buyTicket 8 1 0 0]
          (run ((List.range U64_MAX).flatMap cexPair)
            (stepSt (.createEvent 9 0 "n" 1 2 "c") (new 0))) := by
      rw [show cexOps = Op.createEvent 9 0 "n" 1 2 "c" ::
        ((List.range U64_MAX).flatMap cexPair ++
          [Op.buyTicket 7 1 0 0, Op.buyTicket 8 1 0 0]) from rfl,
        run_cons, run_append]
    rw [h0, cex_start, cex_pairs_run U64_MAX le_rfl]
    have hb7 : buy_ticket (cexSt U64_MAX) 7 1 0 0 =
        (.ok U64_MAX, buySt (cexSt U64_MAX) 7 0 0 cexEv) :=
      buy_ticket_ok (cexSt U64_MAX) 7 1 0 0 cexEv rfl rfl rfl rfl (by decide) rfl
        (by simp [cexSt, MAX_TICKETS_PER_USER])
    have hb8 : buy_ticket (buySt (cexSt U64_MAX) 7 0 0 cexEv) 8 1 0 0 =
        (.ok U64_MAX, buySt (buySt (cexSt U64_MAX) 7 0 0 cexEv) 8 0 0
          { cexEv with available_tickets := cexEv.available_tickets - 1 }) := by
      have hcard8 : ((buySt (cexSt U64_MAX) 7 0 0 cexEv).owner_tickets 8).card <
          MAX_TICKETS_PER_USER := by
        simp [buySt, cexSt, sset, MAX_TICKETS_PER_USER]
      have := buy_ticket_ok (buySt (cexSt U64_MAX) 7 0 0 cexEv) 8 1 0 0
        { cexEv with available_tickets := cexEv.available_tickets - 1 }
        (by simp [buySt, cexSt, mset]) rfl rfl rfl (by decide) rfl hcard8
      simpa [buySt, cexSt, satAdd64_max] using this
    show run [.buyTicket 8 1 0 0] (stepSt (.buyTicket 7 1 0 0) (cexSt U64_MAX)) = _
    rw [stepSt, hb7]
    show (buy_ticket (buySt (cexSt U64_MAX) 7 0 0 cexEv) 8 1 0 0).2 = _
    rw [hb8]
  refine ⟨?_, ?_, by decide⟩
  · rw [hrun]
    show ((buySt (buySt (cexSt U64_MAX) 7 0 0 cexEv) 8 0 0
        { cexEv with available_tickets := cexEv.available_tickets - 1 }).owner_tickets
          7).sort (· ≤ ·) = [U64_MAX]
    have hset : (buySt (buySt (cexSt U64_MAX) 7 0 0 cexEv) 8 0 0
        { cexEv with available_tickets := cexEv.available_tickets - 1 }).owner_tickets
          7 = {U64_MAX} := by
      simp [buySt, cexSt, sset]
    rw [hset, Finset.sort_singleton]
  · rw [hrun]
    simp [buySt, cexSt, mset, satAdd64_max]

/-! Supply bound (claim C8).  The bound holds as long as no event is created
while the event counter sits at `U64_MAX`: a create at the saturated counter
reuses event ID `U64_MAX`, and cancelling an old ticket of the overwritten
event then pushes the new event's `available_tickets` above `total_tickets`
(see the counterexample below). -/

/-- Whether ticket slot `j` of map `m` holds a live (non-refunded) ticket of
event `k`. -/
def liveB (m : ℕ → Option Ticket) (k j : ℕ) : Bool :=
  match m j with
  | some t => (t.event_id == k) && !t.is_refunded
  | none => false

/-- The set of live ticket slots of event `k` (all ticket keys are at most
`ticket_counter`, so the range covers every stored ticket). -/
def liveTix (s : State) (k : ℕ) : Finset ℕ :=
  (Finset.range (s.ticket_counter + 1)).filter (fun j => liveB s.tickets k j = true)

/-- Every event's available tickets plus its live tickets fit in its total. -/
def InvAvail (s : State) : Prop :=
  ∀ k e, s.events k = some e →
    e.available_tickets + (liveTix s k).card ≤ e.total_tickets

/-- Event keys are below the event counter. -/
def InvEvKeys (s : State) : Prop := ∀ k, s.events k ≠ none → k < s.event_counter

/-- Ticket keys are at most the ticket counter. -/
def InvTickLe (s : State) : Prop := ∀ k, s.tickets k ≠ none → k ≤ s.ticket_counter

/-- Below saturation, ticket keys are strictly below the ticket counter. -/
def InvTickStrict (s : State) : Prop :=
  s.ticket_counter < U64_MAX → ∀ k, s.tickets k ≠ none → k < s.ticket_counter

/-- Stored tickets reference events below the event counter. -/
def InvTickEv (s : State) : Prop :=
  ∀ k t, s.tickets k = some t → t.event_id < s.event_counter

/-- Stored events respect the creation-time total-tickets bound. -/
def InvTotal (s : State) : Prop :=
  ∀ k e, s.events k = some e → e.total_tickets ≤ MAX_TICKETS_PER_EVENT

/-- Both counters stay at most `U64_MAX`. -/
def InvCnt (s : State) : Prop :=
  s.ticket_counter ≤ U64_MAX ∧ s.event_counter ≤ U64_MAX

/-- The inductive invariant bundle for claim C8. -/
def WfE (s : State) : Prop :=
  InvAvail s ∧ InvEvKeys s ∧ InvTickLe s ∧ InvTickStrict s ∧ InvTickEv s ∧
    InvTotal s ∧ InvCnt s

lemma satAdd64_le_max (n : ℕ) : satAdd64 n ≤ U64_MAX := min_le_right _ _

lemma le_satAdd64 {n : ℕ} (h : n ≤ U64_MAX) : n ≤ satAdd64 n :=
  le_min (Nat.le_succ n) h

lemma satAdd32_of_le {n : ℕ} (h : n + 1 ≤ U32_MAX) : satAdd32 n = n + 1 :=
  min_eq_left h

lemma filter_liveB_mset (m : ℕ → Option Ticket) (j0 : ℕ) (v : Ticket) (k : ℕ)
    (R : Finset ℕ) (hj0 : j0 ∈ R) :
    R.filter (fun j => liveB (mset m j0 v) k j = true) =
    if v.event_id = k ∧ v.is_refunded = false then
      insert j0 (R.filter (fun j => liveB m k j = true))
    else (R.filter (fun j => liveB m k j = true)).erase j0 := by
  ext j
  by_cases hj : j = j0
  · subst hj
    have hlive : liveB (mset m j v) k j = ((v.event_id == k) && !v.is_refunded) := by
      simp [liveB, mset]
    split_ifs with hv
    · simp [Finset.mem_filter, hj0, hlive, hv]
    · simp only [Finset.mem_filter, Finset.mem_erase, hlive]
      constructor
      · intro hmem
        exact absurd (by simpa using hmem.2) hv
      · intro hmem
        exact absurd rfl hmem.1
  · have hlive : liveB (mset m j0 v) k j = liveB m k j := by
      simp [liveB, mset, hj]
    split_ifs with hv
    · simp [Finset.mem_filter, Finset.mem_insert, hj, hlive]
    · simp [Finset.mem_filter, Finset.mem_erase, hj, hlive]

lemma liveTix_subset_of_dead (s : State) (k j0 : ℕ) (v : Ticket)
    (hTL : InvTickLe s) (hdead : ¬(v.event_id = k ∧ v.is_refunded = false))
    (cnt' : ℕ) :
    ((Finset.range (cnt' + 1)).filter
      (fun j => liveB (mset s.tickets j0 v) k j = true)) ⊆ liveTix s k := by
  intro j hj
  rw [Finset.mem_filter] at hj
  by_cases hjj : j = j0
  · subst hjj
    have : liveB (mset s.tickets j v) k j = ((v.event_id == k) && !v.is_refunded) := by
      simp [liveB, mset]
    rw [this] at hj
    exact absurd (by simpa using hj.2) hdead
  · have hlb : liveB (mset s.tickets j0 v) k j = liveB s.tickets k j := by
      simp [liveB, mset, hjj]
    rw [hlb] at hj
    have hsome : s.tickets j ≠ none := by
      intro hnone
      rw [liveB, hnone] at hj
      exact nomatch hj.2
    rw [liveTix, Finset.mem_filter]
    exact ⟨Finset.mem_range.2 (Nat.lt_succ_of_le (hTL j hsome)), hj.2⟩

lemma liveTix_subset_insert (s : State) (k j0 : ℕ) (v : Ticket)
    (hTL : InvTickLe s) (cnt' : ℕ) :
    ((Finset.range (cnt' + 1)).filter
      (fun j => liveB (mset s.tickets j0 v) k j = true)) ⊆
      insert j0 (liveTix s k) := by
  intro j hj
  rw [Finset.mem_filter] at hj
  by_cases hjj : j = j0
  · exact hjj ▸ Finset.mem_insert_self _ _
  · have hlb : liveB (mset s.tickets j0 v) k j = liveB s.tickets k j := by
      simp [liveB, mset, hjj]
    rw [hlb] at hj
    have hsome : s.tickets j ≠ none := by
      intro hnone
      rw [liveB, hnone] at hj
      exact nomatch hj.2
    refine Finset.mem_insert_of_mem ?_
    rw [liveTix, Finset.mem_filter]
    exact ⟨Finset.mem_range.2 (Nat.lt_succ_of_le (hTL j hsome)), hj.2⟩

lemma wfE_createSt (s : State) (caller now : ℕ) (name : String)
    (price total_tickets : ℕ) (metadata_cid : String) (h : WfE s)
    (hP : s.event_counter < U64_MAX) (htt : total_tickets ≤ MAX_TICKETS_PER_EVENT) :
    WfE (createSt s caller now name price total_tickets metadata_cid) := by
  obtain ⟨hA, hEK, hTL, hTS, hTE, hTot, hCnt⟩ := h
  have hec : satAdd64 s.event_counter = s.event_counter + 1 := satAdd64_of_lt hP
  have hlive : ∀ k, liveTix (createSt s caller now name price total_tickets metadata_cid) k =
      liveTix s k := fun _ => rfl
  have hempty : liveTix s s.event_counter = ∅ := by
    rw [Finset.eq_empty_iff_forall_not_mem]
    intro j hj
    rw [liveTix, Finset.mem_filter] at hj
    rcases hts : s.tickets j with _ | t
    · rw [liveB, hts] at hj
      exact nomatch hj.2
    · rw [liveB, hts] at hj
      have : t.event_id = s.event_counter := by
        have := hj.2
        simp at this
        exact this.1
      exact absurd (this ▸ hTE j t hts) (lt_irrefl _)
  refine ⟨?_, ?_, hTL, hTS, ?_, ?_, ⟨hCnt.1, satAdd64_le_max _⟩⟩
  · intro k e hk
    rw [hlive]
    simp only [createSt, mset] at hk
    by_cases hkk : k = s.event_counter
    · rw [if_pos hkk] at hk
      cases hk
      rw [hkk, hempty]
      simp
    · rw [if_neg hkk] at hk
      exact hA k e hk
  · intro k hk
    simp only [createSt, mset] at hk ⊢
    rw [hec]
    by_cases hkk : k = s.event_counter
    · omega
    · rw [if_neg hkk] at hk
      exact Nat.lt_succ_of_lt (hEK k hk)
  · intro k t ht
    simp only [createSt] at ht ⊢
    exact lt_of_lt_of_le (hTE k t ht) (by rw [hec]; omega)
  · intro k e hk
    simp only [createSt, mset] at hk
    by_cases hkk : k = s.event_counter
    · rw [if_pos hkk] at hk
      cases hk
      exact htt
    · rw [if_neg hkk] at hk
      exact hTot k e hk

lemma wfE_buySt (s : State) (caller now event_id : ℕ) (e : Event)
    (he : s.events event_id = some e) (hav : e.available_tickets ≠ 0)
    (h : WfE s) : WfE (buySt s caller now event_id e) := by
  obtain ⟨hA, hEK, hTL, hTS, hTE, hTot, hCnt⟩ := h
  have hkey : event_id < s.event_counter := hEK event_id (by simp [he])
  refine ⟨?_, ?_, ?_, ?_, ?_, ?_, ⟨satAdd64_le_max _, hCnt.2⟩⟩
  · intro k e2 hk
    simp only [buySt, mset] at hk
    by_cases hkk : k = event_id
    · rw [if_pos hkk] at hk
      cases hk
      have hsub : liveTix (buySt s caller now event_id e) k ⊆
          insert s.ticket_counter (liveTix s k) :=
        liveTix_subset_insert s k s.ticket_counter _ hTL _
      have hcard : (liveTix (buySt s caller now event_id e) k).card ≤
          (liveTix s k).card + 1 :=
        le_trans (Finset.card_le_card hsub) (Finset.card_insert_le _ _)
      have := hA k e (hkk ▸ he)
      simp only []
      omega
    · rw [if_neg hkk] at hk
      have hsub : liveTix (buySt s caller now event_id e) k ⊆ liveTix s k := by
        refine liveTix_subset_of_dead s k s.ticket_counter _ hTL ?_ _
        rintro ⟨hh, _⟩
        exact hkk (hh ▸ rfl)
      have := hA k e2 hk
      have := Finset.card_le_card hsub
      omega
  · intro k hk
    simp only [buySt, mset] at hk ⊢
    by_cases hkk : k = event_id
    · exact hkk ▸ hkey
    · rw [if_neg hkk] at hk
      exact hEK k hk
  · intro k hk
    simp only [buySt, mset] at hk ⊢
    by_cases hkk : k = s.ticket_counter
    · rw [hkk]
      exact le_satAdd64 hCnt.1
    · rw [if_neg hkk] at hk
      exact le_trans (hTL k hk) (le_satAdd64 hCnt.1)
  · intro hlt k hk
    simp only [buySt, mset] at hlt hk ⊢
    have htc : s.ticket_counter < U64_MAX :=
      lt_of_le_of_lt (le_satAdd64 hCnt.1) hlt
    rw [satAdd64_of_lt htc] at hlt ⊢
    by_cases hkk : k = s.ticket_counter
    · omega
    · rw [if_neg hkk] at hk
      exact Nat.lt_succ_of_lt (hTS htc k hk)
  · intro k t ht
    simp only [buySt, mset] at ht ⊢
    by_cases hkk : k = s.ticket_counter
    · rw [if_pos hkk] at ht
      cases ht
      exact hkey
    · rw [if_neg hkk] at ht
      exact hTE k t ht
  · intro k e2 hk
    simp only [buySt, mset] at hk
    by_cases hkk : k = event_id
    · rw [if_pos hkk] at hk
      cases hk
      exact hTot k e (hkk ▸ he)
    · rw [if_neg hkk] at hk
      exact hTot k e2 hk

lemma wfE_tick_update (s : State) (tid : ℕ) (t0 v : Ticket)
    (ht0 : s.tickets tid = some t0) (hev : v.event_id = t0.event_id)
    (hrf : v.is_refunded = false → t0.is_refunded = false)
    (h : WfE s) :
    let s' := { s with tickets := mset s.tickets tid v }
    (∀ k, (liveTix s' k).card ≤ (liveTix s k).card) ∧ InvEvKeys s' ∧ InvTickLe s' ∧
      InvTickStrict s' ∧ InvTickEv s' ∧ InvTotal s' ∧ InvCnt s' := by
  obtain ⟨hA, hEK, hTL, hTS, hTE, hTot, hCnt⟩ := h
  intro s'
  refine ⟨?_, hEK, ?_, ?_, ?_, hTot, hCnt⟩
  · intro k
    have hrange : tid ∈ Finset.range (s.ticket_counter + 1) :=
      Finset.mem_range.2 (Nat.lt_succ_of_le (hTL tid (by simp [ht0])))
    have hfil := filter_liveB_mset s.tickets tid v k
      (Finset.range (s.ticket_counter + 1)) hrange
    have hlt : liveTix s' k =
        (if v.event_id = k ∧ v.is_refunded = false then
          insert tid (liveTix s k)
        else (liveTix s k).erase tid) := hfil
    rw [hlt]
    split_ifs with hv
    · have hmem : tid ∈ liveTix s k := by
        rw [liveTix, Finset.mem_filter]
        refine ⟨hrange, ?_⟩
        rw [liveB, ht0]
        have h1 : t0.event_id = k := hev ▸ hv.1
        have h2 : t0.is_refunded = false := hrf hv.2
        simp [h1, h2]
      rw [Finset.insert_eq_self.2 hmem]
    · exact Finset.card_erase_le
  · intro k hk
    simp only [mset] at hk
    by_cases hkk : k = tid
    · exact hkk ▸ hTL tid (by simp [ht0])
    · rw [if_neg hkk] at hk
      exact hTL k hk
  · intro hlt k hk
    simp only [mset] at hk
    by_cases hkk : k = tid
    · exact hkk ▸ hTS hlt tid (by simp [ht0])
    · rw [if_neg hkk] at hk
      exact hTS hlt k hk
  · intro k t ht
    simp only [mset] at ht
    by_cases hkk : k = tid
    · rw [if_pos hkk] at ht
      cases ht
      exact hev ▸ hTE tid t0 ht0
    · rw [if_neg hkk] at ht
      exact hTE k t ht

lemma wfE_tickOnly (s : State) (tid : ℕ) (t0 v : Ticket) (S : ℕ → Finset ℕ)
    (ht0 : s.tickets tid = some t0) (hev : v.event_id = t0.event_id)
    (hrf : v.is_refunded = false → t0.is_refunded = false)
    (h : WfE s) :
    WfE { s with tickets := mset s.tickets tid v, owner_tickets := S } := by
  obtain ⟨hc, hEK, hTL, hTS, hTE, hTot, hCnt⟩ := wfE_tick_update s tid t0 v ht0 hev hrf h
  refine ⟨?_, hEK, hTL, hTS, hTE, hTot, hCnt⟩
  intro k e hk
  have hcard : (liveTix { s with tickets := mset s.tickets tid v, owner_tickets := S } k).card ≤ (liveTix s k).card := hc k
  have hA2 := h.1 k e hk
  omega

lemma wfE_ev_update (s : State) (eid : ℕ) (e e' : Event)
    (he : s.events eid = some e)
    (hav : e'.available_tickets = e.available_tickets)
    (htot : e'.total_tickets = e.total_tickets)
    (h : WfE s) :
    WfE { s with events := mset s.events eid e' } := by
  obtain ⟨hA, hEK, hTL, hTS, hTE, hTot, hCnt⟩ := h
  refine ⟨?_, ?_, hTL, hTS, hTE, ?_, hCnt⟩
  · intro k e2 hk
    have hlt : liveTix { s with events := mset s.events eid e' } k = liveTix s k := rfl
    rw [hlt]
    simp only [mset] at hk
    by_cases hkk : k = eid
    · rw [if_pos hkk] at hk
      cases hk
      rw [hav, htot, hkk]
      exact hA eid e (hkk ▸ he)
    · rw [if_neg hkk] at hk
      exact hA k e2 hk
  · intro k hk
    simp only [mset] at hk
    by_cases hkk : k = eid
    · exact hkk ▸ hEK eid (by simp [he])
    · rw [if_neg hkk] at hk
      exact hEK k hk
  · intro k e2 hk
    simp only [mset] at hk
    by_cases hkk : k = eid
    · rw [if_pos hkk] at hk
      cases hk
      rw [htot]
      exact hTot eid e (hkk ▸ he)
    · rw [if_neg hkk] at hk
      exact hTot k e2 hk

lemma wfE_cancelTickSt (s : State) (c id : ℕ) (t : Ticket) (e : Event)
    (ht : s.tickets id = some t) (hr : t.is_refunded = false)
    (he : s.events t.event_id = some e) (h : WfE s) :
    WfE (cancelTickSt s c id t e) := by
  obtain ⟨hA, hEK, hTL, hTS, hTE, hTot, hCnt⟩ := h
  have hrange : id ∈ Finset.range (s.ticket_counter + 1) :=
    Finset.mem_range.2 (Nat.lt_succ_of_le (hTL id (by simp [ht])))
  have hmem : id ∈ liveTix s t.event_id := by
    rw [liveTix, Finset.mem_filter]
    refine ⟨hrange, ?_⟩
    rw [liveB, ht]
    simp [hr]
  have hcard1 : 1 ≤ (liveTix s t.event_id).card :=
    Finset.card_pos.2 ⟨id, hmem⟩
  have hbound := hA t.event_id e he
  have htotB := hTot t.event_id e he
  have hsatA : satAdd32 e.available_tickets = e.available_tickets + 1 := by
    refine satAdd32_of_le ?_
    rw [U32_MAX]
    rw [MAX_TICKETS_PER_EVENT] at htotB
    omega
  refine ⟨?_, ?_, ?_, ?_, ?_, ?_, hCnt⟩
  · intro k e2 hk
    simp only [cancelTickSt, mset] at hk
    by_cases hkk : k = t.event_id
    · rw [if_pos hkk] at hk
      cases hk
      have hfil := filter_liveB_mset s.tickets id
        { t with is_refunded := true } k (Finset.range (s.ticket_counter + 1)) hrange
      have herase : liveTix (cancelTickSt s c id t e) k =
          (liveTix s k).erase id := by
        rw [show liveTix (cancelTickSt s c id t e) k =
          (Finset.range (s.ticket_counter + 1)).filter
            (fun j => liveB (mset s.tickets id { t with is_refunded := true }) k j
              = true) from rfl, hfil, if_neg (by simp)]
        rfl
      rw [herase, Finset.card_erase_of_mem (hkk ▸ hmem), hsatA]
      simp only []
      rw [hkk] at *
      omega
    · rw [if_neg hkk] at hk
      have hsub : liveTix (cancelTickSt s c id t e) k ⊆ liveTix s k := by
        refine liveTix_subset_of_dead s k id _ hTL (by simp) _
      have := hA k e2 hk
      have := Finset.card_le_card hsub
      omega
  · intro k hk
    simp only [cancelTickSt, mset] at hk
    by_cases hkk : k = t.event_id
    · exact hkk ▸ hEK t.event_id (by simp [he])
    · rw [if_neg hkk] at hk
      exact hEK k hk
  · intro k hk
    simp only [cancelTickSt, mset] at hk
    by_cases hkk : k = id
    · exact hkk ▸ hTL id (by simp [ht])
    · rw [if_neg hkk] at hk
      exact hTL k hk
  · intro hlt k hk
    simp only [cancelTickSt, mset] at hk
    by_cases hkk : k = id
    · exact hkk ▸ hTS hlt id (by simp [ht])
    · rw [if_neg hkk] at hk
      exact hTS hlt k hk
  · intro k t2 ht2
    simp only [cancelTickSt, mset] at ht2
    by_cases hkk : k = id
    · rw [if_pos hkk] at ht2
      cases ht2
      exact hTE id t ht
    · rw [if_neg hkk] at ht2
      exact hTE k t2 ht2
  · intro k e2 hk
    simp only [cancelTickSt, mset] at hk
    by_cases hkk : k = t.event_id
    · rw [if_pos hkk] at hk
      cases hk
      exact hTot t.event_id e (hkk ▸ he)
    · rw [if_neg hkk] at hk
      exact hTot k e2 hk

lemma wfE_new (a : ℕ) : WfE (new a) := by
  refine ⟨?_, ?_, ?_, ?_, ?_, ?_, ?_⟩
  · intro k e hk
    exact absurd hk (by simp [new])
  · intro k hk
    exact absurd hk (by simp [new])
  · intro k hk
    exact absurd hk (by simp [new])
  · intro _ k hk
    exact absurd hk (by simp [new])
  · intro k t ht
    exact absurd ht (by simp [new])
  · intro k e hk
    exact absurd hk (by simp [new])
  · exact ⟨by simp [new], by simp [new]⟩

lemma wfE_step (op : Op) (s : State) (hP : noEvSat op s) (h : WfE s) :
    WfE (stepSt op s) := by
  cases op with
  | createEvent c n nm p tt cid =>
    show WfE (create_event s c n nm p tt cid).2
    rcases create_state_cases s c n nm p tt cid with heq |
      ⟨_, _, _, _, _, htt, _, heq⟩
    · rw [heq]; exact h
    · rw [heq]
      exact wfE_createSt s c n nm p tt cid h hP htt
  | buyTicket c p n eid =>
    show WfE (buy_ticket s c p n eid).2
    rcases buy_state_cases s c p n eid with heq |
      ⟨e, he, _, _, _, hav, _, _, heq⟩
    · rw [heq]; exact h
    · rw [heq]
      exact wfE_buySt s c n eid e he hav h
  | transferTicket c tid dst =>
    show WfE (transfer_ticket s c tid dst).2
    rcases transfer_state_cases s c tid dst with heq |
      ⟨t, ht, _, _, hrf, _, heq⟩
    · rw [heq]; exact h
    · rw [heq]
      exact wfE_tickOnly s tid t { t with owner := dst } _ ht rfl (fun _ => hrf) h
  | useTicket c tid =>
    show WfE (use_ticket s c tid).2
    rcases use_state_cases s c tid with heq |
      ⟨t, e, ht, he, _, hrf, _, _, _, heq⟩
    · rw [heq]; exact h
    · rw [heq]
      exact wfE_tickOnly s tid t { t with is_used := true } s.owner_tickets ht rfl
        (fun _ => hrf) h
  | cancelEvent c eid =>
    show WfE (cancel_event s c eid).2
    rcases cancel_event_state_cases s c eid with ⟨err, heq⟩ |
      ⟨e, he, _, _, _, heq⟩
    · rw [heq]; exact h
    · rw [heq]
      exact wfE_ev_update s eid e { e with cancelled := true, active := false }
        he rfl rfl h
  | completeEvent c eid =>
    show WfE (complete_event s c eid).2
    rcases complete_event_state_cases s c eid with ⟨err, heq⟩ |
      ⟨e, he, _, _, _, heq⟩
    · rw [heq]; exact h
    · rw [heq]
      exact wfE_ev_update s eid e { e with completed := true, active := false }
        he rfl rfl h
  | refundTicket c tid ok =>
    show WfE (refund_ticket_call s c tid ok).2.1
    rcases refund_call_state_cases s c tid ok with heq |
      ⟨t, e, ht, _, hrf, _, _, _, heq⟩
    · rw [heq]; exact h
    · rw [heq]
      exact wfE_tickOnly s tid t { t with is_refunded := true } _ ht rfl
        (fun _ => hrf) h
  | cancelTicket c tid ok =>
    show WfE (cancel_ticket_call s c tid ok).2.1
    rcases cancel_call_state_cases s c tid ok with heq |
      ⟨t, e, ht, _, hrf, _, he, _, _, _, heq⟩
    · rw [heq]; exact h
    · rw [heq]
      exact wfE_cancelTickSt s c tid t e ht hrf he h
  | withdrawEarnings c eid ok =>
    show WfE (withdraw_earnings_call s c eid ok).2.1
    rw [withdraw_call_state]
    exact h

lemma wfE_reaches (a : ℕ) (s : State) (hr : Reaches noEvSat a s) : WfE s := by
  induction hr with
  | init => exact wfE_new a
  | step s op _ hP ih => exact wfE_step op s hP ih

/-- Claim C8 (amended): for every event stored in any state reachable from a
fresh deployment by calls that never create an event while the event counter
sits at its saturation point `2^64 − 1`, `available_tickets` never exceeds
`total_tickets` (non-negativity is inherent: the embedding carries the `u32`
value as a natural number, and `buy_ticket`'s `SoldOut` guard stops the
decrement at zero).  The original unconditional claim fails at the saturated
event counter — see the counterexample below. -/
theorem C8_available_bounded (a : ℕ) (s : State) (hr : Reaches noEvSat a s)
    (k : ℕ) (e : Event) (he : s.events k = some e) :
    e.available_tickets ≤ e.total_tickets := by
  have h := wfE_reaches a s hr
  have hb := h.1 k e he
  omega

/-- The event which the C8 counterexample run stores at key `j` (the C8
witness reuses `c8Ev 0`, the single event of its one-call history). -/
def c8Ev (j : ℕ) : Event :=
  { id := j, name := "n", organizer := 9, price := 1, total_tickets := 2,
    available_tickets := 2, timestamp := 0, metadata_cid := "c",
    active := true, cancelled := false, completed := false }

theorem C8_available_bounded_witness :
    (stepSt (.createEvent 9 0 "n" 1 2 "c") (new 0)).events 0 = some (c8Ev 0) ∧
    (c8Ev 0).available_tickets ≤ (c8Ev 0).total_tickets := by
  have he : (stepSt (.createEvent 9 0 "n" 1 2 "c") (new 0)).events 0 =
      some (c8Ev 0) := by
    rw [show stepSt (.createEvent 9 0 "n" 1 2 "c") (new 0) =
      (create_event (new 0) 9 0 "n" 1 2 "c").2 from rfl,
      create_event_ok (new 0) 9 0 "n" 1 2 "c" (by decide) (by decide) (by decide)
        (by decide) (by decide) (by decide) (by decide)]
    simp [createSt, new, mset, c8Ev]
  refine ⟨he, C8_available_bounded 0 _
    (Reaches.step (new 0) (.createEvent 9 0 "n" 1 2 "c") Reaches.init
      (show (new 0).event_counter < U64_MAX by decide))
    0 (c8Ev 0) he⟩

/-- The creation call repeated `2^64 − 1` times in the C8 counterexample. -/
def c8Create : Op := .createEvent 9 0 "n" 1 2 "c"

/-- The state after `n ≤ 2^64 − 1` creations from a fresh deployment. -/
def c8St (n : ℕ) : State :=
  { event_counter := n, ticket_counter := 0,
    events := fun j => if j < n then some (c8Ev j) else none,
    tickets := fun _ => none, owner_tickets := fun _ => ∅, admin := 0 }

lemma c8_creates (n : ℕ) (hn : n ≤ U64_MAX) :
    run (List.replicate n c8Create) (new 0) = c8St n := by
  induction n with
  | zero =>
    show new 0 = c8St 0
    refine State.ext rfl rfl ?_ rfl rfl rfl
    funext j
    simp [new, c8St]
  | succ m ih =>
    rw [List.replicate_succ', run_append, ih (by omega)]
    show stepSt c8Create (c8St m) = c8St (m + 1)
    rw [show stepSt c8Create (c8St m) = (create_event (c8St m) 9 0 "n" 1 2 "c").2
        from rfl,
      create_event_ok (c8St m) 9 0 "n" 1 2 "c" (by decide) (by decide) (by decide)
        (by decide) (by decide) (by decide) (by decide)]
    refine State.ext ?_ rfl ?_ rfl rfl rfl
    · simp [createSt, c8St, satAdd64_of_lt (show m < U64_MAX by omega)]
    · funext j
      simp only [createSt, c8St, mset]
      by_cases hj : j = m
      · subst hj
        simp [c8Ev]
      · rw [if_neg hj]
        by_cases hj2 : j < m
        · rw [if_pos hj2, if_pos (by omega)]
        · rw [if_neg hj2, if_neg (by omega)]

/-- Intermediate states of the C8 counterexample tail: the create at the
saturated counter, the buy of ticket 0 on event `2^64 − 1`, and the second
create at the saturated counter, which overwrites event `2^64 − 1`. -/
def c8sA : State := createSt (c8St U64_MAX) 9 0 "n" 1 2 "c"

def c8sB : State := buySt c8sA 7 0 U64_MAX (c8Ev U64_MAX)

def c8sC : State := createSt c8sB 9 0 "m" 1 1 "c"

/-- The ticket minted by the C8 counterexample's buy. -/
def c8Tick : Ticket :=
  { id := 0, event_id := U64_MAX, owner := 7, purchase_time := 0,
    is_used := false, is_refunded := false }

/-- The overwriting event of the C8 counterexample: 1 ticket in total. -/
def c8Ev2 : Event :=
  { id := U64_MAX, name := "m", organizer := 9, price := 1, total_tickets := 1,
    available_tickets := 1, timestamp := 0, metadata_cid := "c",
    active := true, cancelled := false, completed := false }

/-- The final stored event of the C8 counterexample: 2 tickets available out
of a total of 1. -/
def c8Bad : Event :=
  { id := U64_MAX, name := "m", organizer := 9, price := 1, total_tickets := 1,
    available_tickets := 2, timestamp := 0, metadata_cid := "c",
    active := true, cancelled := false, completed := false }

/-- The full C8 counterexample call sequence: saturate the event counter with
`2^64 − 1` creations, create event `2^64 − 1` (2 tickets), buy ticket 0 on
it, overwrite it by creating again at the saturated counter (1 ticket), then
cancel ticket 0. -/
def c8Ops : List Op :=
  List.replicate U64_MAX c8Create ++
    [c8Create, .buyTicket 7 1 0 U64_MAX, .createEvent 9 0 "m" 1 1 "c",
     .cancelTicket 7 0 true]

/-- Claim C8, counterexample as stated: in the reachable state
`run c8Ops (new 0)`, the stored event `2^64 − 1` has
`available_tickets = 2 > 1 = total_tickets`. -/
theorem C8_counterexample :
    (run c8Ops (new 0)).events U64_MAX = some c8Bad ∧
    c8Bad.total_tickets < c8Bad.available_tickets := by
  have hA : stepSt c8Create (c8St U64_MAX) = c8sA := by
    rw [show stepSt c8Create (c8St U64_MAX) =
        (create_event (c8St U64_MAX) 9 0 "n" 1 2 "c").2 from rfl,
      create_event_ok (c8St U64_MAX) 9 0 "n" 1 2 "c" (by decide) (by decide)
        (by decide) (by decide) (by decide) (by decide) (by decide)]
    rfl
  have heB : c8sA.events U64_MAX = some (c8Ev U64_MAX) := by
    simp [c8sA, createSt, c8St, mset, c8Ev]
  have hB : buy_ticket c8sA 7 1 0 U64_MAX = (.ok c8sA.ticket_counter, c8sB) :=
    buy_ticket_ok c8sA 7 1 0 U64_MAX (c8Ev U64_MAX) heB rfl rfl rfl
      (by simp [c8Ev]) rfl
      (by simp [c8sA, createSt, c8St, MAX_TICKETS_PER_USER])
  have hC : create_event c8sB 9 0 "m" 1 1 "c" = (.ok c8sB.event_counter, c8sC) :=
    create_event_ok c8sB 9 0 "m" 1 1 "c" (by decide) (by decide) (by decide)
      (by decide) (by decide) (by decide) (by decide)
  have htD : c8sC.tickets 0 = some c8Tick := by
    simp [c8sC, c8sB, c8sA, createSt, buySt, c8St, mset, c8Tick]
  have heD : c8sC.events c8Tick.event_id = some c8Ev2 := by
    simp [c8sC, c8sB, c8sA, createSt, buySt, c8St, mset, c8Tick, c8Ev2,
      satAdd64_max]
  have hD := cancel_ticket_ok c8sC 7 0 true c8Tick c8Ev2 htD rfl rfl rfl heD rfl rfl
  have hrun : run c8Ops (new 0) = cancelTickSt c8sC 7 0 c8Tick c8Ev2 := by
    rw [show c8Ops = List.replicate U64_MAX c8Create ++
        [c8Create, .buyTicket 7 1 0 U64_MAX, .createEvent 9 0 "m" 1 1 "c",
         .cancelTicket 7 0 true] from rfl,
      run_append, c8_creates U64_MAX le_rfl]
    show run [.buyTicket 7 1 0 U64_MAX, .createEvent 9 0 "m" 1 1 "c",
      .cancelTicket 7 0 true] (stepSt c8Create (c8St U64_MAX)) = _
    rw [hA]
    show run [.createEvent 9 0 "m" 1 1 "c", .cancelTicket 7 0 true]
      (stepSt (.buyTicket 7 1 0 U64_MAX) c8sA) = _
    rw [show stepSt (.buyTicket 7 1 0 U64_MAX) c8sA =
      (buy_ticket c8sA 7 1 0 U64_MAX).2 from rfl, hB]
    show run [.cancelTicket 7 0 true]
      (stepSt (.createEvent 9 0 "m" 1 1 "c") c8sB) = _
    rw [show stepSt (.createEvent 9 0 "m" 1 1 "c") c8sB =
      (create_event c8sB 9 0 "m" 1 1 "c").2 from rfl, hC]
    show (cancel_ticket_call c8sC 7 0 true).2.1 = _
    rw [cancel_ticket_call, hD]
    simp [revert3]
  rw [hrun]
  refine ⟨?_, by simp [c8Bad]⟩
  simp [cancelTickSt, mset, c8Tick, c8Ev2, c8Bad, satAdd32, U32_MAX]

end Ticketdot
